import Mathlib

/-!
Verification of the product-feed validator (app.py, utils/, validators/).

Shallow embedding conventions:
* Python values are modelled by `PyValue` (None, bool, int, float, str, list,
  dict).  Python floats are modelled exactly as scaled decimals `Dec`
  (an integer numerator over a power of ten): every float the validator
  manipulates comes from decimal notation, and on such values IEEE-754
  comparison agrees with exact rational comparison.
* A record (a Python dict keyed by strings) is an association list in
  insertion order, `Record`.
* Fallible code is `Except PyErr _`; a bare Python `except:` is translated by
  returning the handler's value, an uncaught exception by `Except.error`.
* Library functions (`urllib.parse.urlparse`, `datetime.fromisoformat`,
  `datetime.strptime`, `json.loads`, `float`, `int`, the `re` patterns used
  by the code) are modelled at their documented behaviour for the ASCII
  inputs the validator handles; unicode case folding, `_` digit separators,
  `inf`/`nan` floats, `\uXXXX` surrogate pairs and the shortest-roundtrip
  float repr are not modelled, and no theorem below depends on them.
-/

/-- An exact decimal: the rational `num / 10 ^ exp`.  Models the Python
floats the validator produces (all of which come from decimal text). -/
structure Dec where
  num : ℤ
  exp : ℕ
deriving Repr, DecidableEq, Inhabited

/-- The rational value of a `Dec`. -/
def Dec.toRat (a : Dec) : ℚ := (a.num : ℚ) / (10 : ℚ) ^ a.exp

/-- Strict comparison of two decimals (cross-multiplied, hence exact). -/
def Dec.lt (a b : Dec) : Bool := a.num * (10 : ℤ) ^ b.exp < b.num * (10 : ℤ) ^ a.exp

/-- Whether a decimal is strictly negative. -/
def Dec.isNeg (a : Dec) : Bool := a.num < 0

/-- Truncation toward zero, the behaviour of Python `int(float)`. -/
def Dec.toInt (a : Dec) : ℤ := Int.tdiv a.num ((10 : ℤ) ^ a.exp)

theorem Dec.lt_iff_toRat (a b : Dec) : Dec.lt a b = true ↔ a.toRat < b.toRat := by
  have ha : (0 : ℚ) < (10 : ℚ) ^ a.exp := by positivity
  have hb : (0 : ℚ) < (10 : ℚ) ^ b.exp := by positivity
  unfold Dec.lt Dec.toRat
  rw [div_lt_div_iff₀ ha hb, decide_eq_true_eq]
  constructor
  · intro h
    exact_mod_cast h
  · intro h
    exact_mod_cast h

theorem Dec.isNeg_iff_toRat (a : Dec) : Dec.isNeg a = true ↔ a.toRat < 0 := by
  have ha : (0 : ℚ) < (10 : ℚ) ^ a.exp := by positivity
  unfold Dec.isNeg Dec.toRat
  rw [div_neg_iff, decide_eq_true_eq]
  constructor
  · intro h
    exact Or.inr ⟨by exact_mod_cast h, ha⟩
  · intro h
    rcases h with ⟨_, h10⟩ | ⟨hn, _⟩
    · linarith
    · exact_mod_cast hn

/-- A Python value as produced by `json.loads` and handled by the validator. -/
inductive PyValue where
  | none
  | bool (b : Bool)
  | int (n : Int)
  | float (d : Dec)
  | str (s : String)
  | list (xs : List PyValue)
  | dict (kvs : List (String × PyValue))
deriving Inhabited

/-- A record: one product's field-value mapping, keys in insertion order. -/
abbrev Record := List (String × PyValue)

/-- Uncaught Python exceptions that the validator code can raise. -/
inductive PyErr where
  | typeError
  | attributeError
deriving Repr, DecidableEq, Inhabited

/-- Python truthiness (`bool(v)`). -/
def truthy : PyValue → Bool
  | .none => false
  | .bool b => b
  | .int n => n ≠ 0
  | .float d => d.num ≠ 0
  | .str s => s ≠ ""
  | .list xs => ¬ xs.isEmpty
  | .dict kvs => ¬ kvs.isEmpty

/-- Python `v in (None, "")`: equality with `None` or with the empty string
(no other value compares equal to either). -/
def inNoneOrEmpty : PyValue → Bool
  | .none => true
  | .str s => s = ""
  | _ => false

/-- Python `v == t` for a string literal `t` (only a str compares equal). -/
def isStrEq (v : PyValue) (t : String) : Bool :=
  match v with
  | .str s => s = t
  | _ => false

/-- Python whitespace, the class `\s` of `re` and the default set of
`str.strip` / `str.split` for ASCII text. -/
def isPySpace (c : Char) : Bool :=
  c = ' ' || c = '\t' || c = '\n' || c = '\x0d' || c = '\x0b' || c = '\x0c'

/-- Python `str.strip()` restricted to ASCII whitespace. -/
def pyStrip (s : String) : String :=
  (((s.toList.dropWhile isPySpace).reverse.dropWhile isPySpace).reverse).asString

/-- Strip a given character from both ends (`str.strip('%')`). -/
def pyStripChar (ch : Char) (s : String) : String :=
  (((s.toList.dropWhile (· = ch)).reverse.dropWhile (· = ch)).reverse).asString

/-- Helper for `pySplitWs`: split a character list on whitespace runs. -/
def splitWsAux : List Char → List Char → List String
  | [], acc => if acc.isEmpty then [] else [acc.reverse.asString]
  | c :: cs, acc =>
    if isPySpace c then
      if acc.isEmpty then splitWsAux cs []
      else acc.reverse.asString :: splitWsAux cs []
    else splitWsAux cs (c :: acc)

/-- Python `str.split()` with no argument: split on whitespace runs,
discarding empty pieces. -/
def pySplitWs (s : String) : List String := splitWsAux s.toList []

/-- ASCII lower-casing of one character (`str.lower` on the validator's
ASCII field names and URLs). -/
def charLower (c : Char) : Char :=
  if 'A' ≤ c && c ≤ 'Z' then Char.ofNat (c.toNat + 32) else c

/-- ASCII `str.lower()`. -/
def strLower (s : String) : String := (s.toList.map charLower).asString

/-- Python `s.split(sep)` for a one-character separator (empty pieces
kept, `""` yielding `[""]`). -/
def splitOnCharAux (sep : Char) : List Char → List Char → List String
  | [], acc => [acc.reverse.asString]
  | c :: cs, acc =>
    if c = sep then acc.reverse.asString :: splitOnCharAux sep cs []
    else splitOnCharAux sep cs (c :: acc)

/-- Python `s.split(sep)` for a one-character separator. -/
def splitOnChar (sep : Char) (s : String) : List String := splitOnCharAux sep s.toList []

/-- Python `s.startswith(pre)`. -/
def strStartsWith (s pre : String) : Bool := pre.toList.isPrefixOf s.toList

/-- Digits of a numeral, most significant first, as a natural number. -/
def digitsToNat (cs : List Char) : ℕ :=
  cs.foldl (fun acc c => acc * 10 + (c.toNat - '0'.toNat)) 0

/-- Apply a base-ten exponent to a decimal, exactly. -/
def Dec.scale (a : Dec) (e : ℤ) : Dec :=
  if 0 ≤ e then ⟨a.num * (10 : ℤ) ^ e.toNat, a.exp⟩ else ⟨a.num, a.exp + (-e).toNat⟩

/-- Model of Python `float(str)` on ASCII decimal notation: optional
whitespace, optional sign, `digits[.digits]`, `.digits` or `digits.`,
optional exponent.  (`inf`, `nan` and `_` separators are not modelled.) -/
def parseFloatStr (s : String) : Option Dec :=
  let cs := (pyStrip s).toList
  let (sign, cs) : ℤ × List Char :=
    match cs with
    | '+' :: t => (1, t)
    | '-' :: t => (-1, t)
    | t => (1, t)
  let (ip, cs) := cs.span (·.isDigit)
  let (fp, cs) : List Char × List Char :=
    match cs with
    | '.' :: t => t.span (·.isDigit)
    | t => ([], t)
  if ip.isEmpty && fp.isEmpty then Option.none
  else
    let base : Dec := ⟨sign * ((digitsToNat ip * 10 ^ fp.length + digitsToNat fp : ℕ) : ℤ), fp.length⟩
    match cs with
    | [] => some base
    | e :: t =>
      if e = 'e' || e = 'E' then
        let (esign, t) : ℤ × List Char :=
          match t with
          | '+' :: t2 => (1, t2)
          | '-' :: t2 => (-1, t2)
          | t2 => (1, t2)
        let (ed, t) := t.span (·.isDigit)
        if ed.isEmpty || ¬ t.isEmpty then Option.none
        else some (base.scale (esign * (digitsToNat ed : ℤ)))
      else Option.none

/-- Model of Python `int(str)` in base 10: optional whitespace, optional
sign, one or more digits. -/
def parseIntStr (s : String) : Option ℤ :=
  let cs := (pyStrip s).toList
  let (sign, cs) : ℤ × List Char :=
    match cs with
    | '+' :: t => (1, t)
    | '-' :: t => (-1, t)
    | t => (1, t)
  if cs.isEmpty || ¬ cs.all (·.isDigit) then Option.none
  else some (sign * (digitsToNat cs : ℤ))

/-- Model of Python `int(v)`: `Option.none` when the conversion raises. -/
def pyInt : PyValue → Option ℤ
  | .bool b => some (if b then 1 else 0)
  | .int n => some n
  | .float d => some d.toInt
  | .str s => parseIntStr s
  | _ => Option.none

/-- Model of Python `float(v)`: `Option.none` when the conversion raises. -/
def pyFloat : PyValue → Option Dec
  | .bool b => some (if b then ⟨1, 0⟩ else ⟨0, 0⟩)
  | .int n => some ⟨n, 0⟩
  | .float d => some d
  | .str s => parseFloatStr s
  | _ => Option.none

/-- Python `str.isdigit()` for ASCII text: non-empty and all digits. -/
def isDigitStr (s : String) : Bool :=
  ¬ s.isEmpty && s.toList.all (·.isDigit)

/-- Simplified repr of a float value (the validator never branches on this
text for any input used in a theorem below). -/
def floatRepr (d : Dec) : String :=
  if d.exp = 0 then toString d.num ++ ".0"
  else toString d.num ++ "e-" ++ toString d.exp

mutual
/-- Python `repr(v)`, as used inside the `str()` of a container (string
escaping inside repr is not modelled). -/
def pyRepr : PyValue → String
  | .none => "None"
  | .bool b => if b then "True" else "False"
  | .int n => toString n
  | .float d => floatRepr d
  | .str s => "'" ++ s ++ "'"
  | .list xs => "[" ++ String.intercalate ", " (pyReprList xs) ++ "]"
  | .dict kvs => "\x7b" ++ String.intercalate ", " (pyReprKVs kvs) ++ "\x7d"

/-- Reprs of the elements of a list value. -/
def pyReprList : List PyValue → List String
  | [] => []
  | v :: vs => pyRepr v :: pyReprList vs

/-- Reprs of the items of a dict value. -/
def pyReprKVs : List (String × PyValue) → List String
  | [] => []
  | (k, v) :: kvs => ("'" ++ k ++ "': " ++ pyRepr v) :: pyReprKVs kvs
end

/-- Python `str(v)`. -/
def pyStr : PyValue → String
  | .none => "None"
  | .bool b => if b then "True" else "False"
  | .int n => toString n
  | .float d => floatRepr d
  | .str s => s
  | .list xs => pyRepr (.list xs)
  | .dict kvs => pyRepr (.dict kvs)

/-- Python `a or b`: the first operand when truthy, else the second. -/
def pyOr (a b : PyValue) : PyValue := if truthy a then a else b

example : pyStrip "  a b " = "a b" := rfl
example : pySplitWs " 79.99  USD " = ["79.99", "USD"] := rfl
example : parseFloatStr "79.99" = some ⟨7999, 2⟩ := rfl
example : parseFloatStr "-1" = some ⟨-1, 0⟩ := rfl
example : parseFloatStr "1." = some ⟨1, 0⟩ := rfl
example : parseFloatStr ".5" = some ⟨5, 1⟩ := rfl
example : parseFloatStr "1e2" = some ⟨100, 0⟩ := rfl
example : parseFloatStr "" = Option.none := rfl
example : parseFloatStr "a" = Option.none := rfl
example : parseIntStr " 12 " = some 12 := rfl
example : parseIntStr "3.5" = Option.none := rfl
example : isDigitStr "0123" = true := rfl
example : isDigitStr "-1" = false := rfl
example : isDigitStr "" = false := rfl
example : Dec.lt ⟨-1, 0⟩ ⟨0, 0⟩ = true := rfl
example : Dec.lt ⟨100, 0⟩ ⟨7999, 2⟩ = false := rfl

/-! JSON decoding: a model of `json.loads` sufficient for the strings the
price parser feeds it. -/

/-- JSON whitespace. -/
def isJsonWs (c : Char) : Bool := c = ' ' || c = '\t' || c = '\n' || c = '\x0d'

/-- Hex digit value. -/
def hexVal? (c : Char) : Option ℕ :=
  if c.isDigit then some (c.toNat - 48)
  else if 'a' ≤ c && c ≤ 'f' then some (c.toNat - 87)
  else if 'A' ≤ c && c ≤ 'F' then some (c.toNat - 55)
  else Option.none

/-- Python dict item assignment: replace in place, else append (how
`json.loads` resolves duplicate object keys). -/
def dictSetItem : List (String × PyValue) → String → PyValue → List (String × PyValue)
  | [], k, v => [(k, v)]
  | (k', v') :: t, k, v =>
    if k' = k then (k, v) :: t else (k', v') :: dictSetItem t k v

/-- First binding of a key in a dict (Python dicts have unique keys). -/
def dictLookup : List (String × PyValue) → String → Option PyValue
  | [], _ => Option.none
  | (k, v) :: t, key => if k = key then some v else dictLookup t key

/-- Python `key in d`. -/
def dictHasKey (kvs : List (String × PyValue)) (key : String) : Bool :=
  (dictLookup kvs key).isSome

/-- Python `d.get(key)`: the binding or `None`. -/
def dictGetD (kvs : List (String × PyValue)) (key : String) : PyValue :=
  (dictLookup kvs key).getD .none

/-- Body of a JSON string after the opening quote (fuelled). -/
def jsonStrAux : ℕ → List Char → List Char → Option (String × List Char)
  | 0, _, _ => Option.none
  | f + 1, acc, cs =>
    match cs with
    | [] => Option.none
    | '"' :: t => some (acc.reverse.asString, t)
    | '\\' :: e :: t =>
      (match e with
       | '"' => jsonStrAux f ('"' :: acc) t
       | '\\' => jsonStrAux f ('\\' :: acc) t
       | '/' => jsonStrAux f ('/' :: acc) t
       | 'b' => jsonStrAux f ('\x08' :: acc) t
       | 'f' => jsonStrAux f ('\x0c' :: acc) t
       | 'n' => jsonStrAux f ('\n' :: acc) t
       | 'r' => jsonStrAux f ('\x0d' :: acc) t
       | 't' => jsonStrAux f ('\t' :: acc) t
       | 'u' =>
         (match t with
          | a :: b :: c :: d :: t2 =>
            (match hexVal? a, hexVal? b, hexVal? c, hexVal? d with
             | some x, some y, some z, some w =>
               jsonStrAux f (Char.ofNat (((x * 16 + y) * 16 + z) * 16 + w) :: acc) t2
             | _, _, _, _ => Option.none)
          | _ => Option.none)
       | _ => Option.none)
    | c :: t => jsonStrAux f (c :: acc) t

/-- Finish a JSON number with no exponent part left. -/
def jsonNumFinish (sign : ℤ) (ip fp : List Char) (cs : List Char) (isFloat : Bool) :
    Option (PyValue × List Char) :=
  if isFloat then
    some (.float ⟨sign * ((digitsToNat ip * 10 ^ fp.length + digitsToNat fp : ℕ) : ℤ), fp.length⟩, cs)
  else some (.int (sign * (digitsToNat ip : ℤ)), cs)

/-- Optional exponent of a JSON number, then finish. -/
def jsonNumTail (sign : ℤ) (ip fp : List Char) (cs : List Char) (isFloat : Bool) :
    Option (PyValue × List Char) :=
  match cs with
  | e :: t =>
    if e = 'e' || e = 'E' then
      let (es, t2) : ℤ × List Char :=
        match t with
        | '+' :: u => (1, u)
        | '-' :: u => (-1, u)
        | u => (1, u)
      let (ed, t3) := t2.span (·.isDigit)
      if ed.isEmpty then Option.none
      else
        let base : Dec := ⟨sign * ((digitsToNat ip * 10 ^ fp.length + digitsToNat fp : ℕ) : ℤ), fp.length⟩
        some (.float (base.scale (es * (digitsToNat ed : ℤ))), t3)
    else jsonNumFinish sign ip fp cs isFloat
  | [] => jsonNumFinish sign ip fp cs isFloat

/-- A JSON number literal (int when it has no fraction and no exponent). -/
def jsonNumber (cs : List Char) : Option (PyValue × List Char) :=
  let (sign, cs1) : ℤ × List Char :=
    match cs with
    | '-' :: t => (-1, t)
    | t => (1, t)
  let (ip, cs2) := cs1.span (·.isDigit)
  if ip.isEmpty then Option.none
  else if 2 ≤ ip.length && ip.headD '0' = '0' then Option.none
  else
    match cs2 with
    | '.' :: t =>
      let (fp, cs3) := t.span (·.isDigit)
      if fp.isEmpty then Option.none else jsonNumTail sign ip fp cs3 true
    | _ => jsonNumTail sign ip [] cs2 false

mutual
/-- A JSON value (fuelled; the fuel bounds the nesting depth). -/
def jsonVal : ℕ → List Char → Option (PyValue × List Char)
  | 0, _ => Option.none
  | f + 1, cs =>
    match cs.dropWhile isJsonWs with
    | [] => Option.none
    | '"' :: t => (jsonStrAux (t.length + 1) [] t).map (fun p => (.str p.1, p.2))
    | '\x7b' :: t =>
      (match t.dropWhile isJsonWs with
       | '\x7d' :: t2 => some (.dict [], t2)
       | t2 => (jsonObjItems f [] t2).map (fun p => (.dict p.1, p.2)))
    | '[' :: t =>
      (match t.dropWhile isJsonWs with
       | ']' :: t2 => some (.list [], t2)
       | t2 => (jsonArrItems f [] t2).map (fun p => (.list p.1, p.2)))
    | 't' :: 'r' :: 'u' :: 'e' :: t => some (.bool true, t)
    | 'f' :: 'a' :: 'l' :: 's' :: 'e' :: t => some (.bool false, t)
    | 'n' :: 'u' :: 'l' :: 'l' :: t => some (.none, t)
    | cs2 => jsonNumber cs2

/-- Members of a JSON object after the opening brace (at least one). -/
def jsonObjItems : ℕ → List (String × PyValue) → List Char →
    Option (List (String × PyValue) × List Char)
  | 0, _, _ => Option.none
  | f + 1, acc, cs =>
    match cs.dropWhile isJsonWs with
    | '"' :: t =>
      (match jsonStrAux (t.length + 1) [] t with
       | some (k, t2) =>
         (match t2.dropWhile isJsonWs with
          | ':' :: t3 =>
            (match jsonVal f t3 with
             | some (v, t4) =>
               let acc2 := dictSetItem acc k v
               (match t4.dropWhile isJsonWs with
                | ',' :: t5 => jsonObjItems f acc2 t5
                | '\x7d' :: t5 => some (acc2, t5)
                | _ => Option.none)
             | _ => Option.none)
          | _ => Option.none)
       | _ => Option.none)
    | _ => Option.none

/-- Elements of a JSON array after the opening bracket (at least one). -/
def jsonArrItems : ℕ → List PyValue → List Char → Option (List PyValue × List Char)
  | 0, _, _ => Option.none
  | f + 1, acc, cs =>
    match jsonVal f cs with
    | some (v, t) =>
      (match t.dropWhile isJsonWs with
       | ',' :: t2 => jsonArrItems f (acc ++ [v]) t2
       | ']' :: t2 => some (acc ++ [v], t2)
       | _ => Option.none)
    | _ => Option.none
end

/-- Model of Python `json.loads`: `Option.none` when it raises. -/
def jsonLoads (s : String) : Option PyValue :=
  match jsonVal (s.length + 1) s.toList with
  | some (v, rest) => if (rest.dropWhile isJsonWs).isEmpty then some v else Option.none
  | _ => Option.none

example : jsonLoads "-1" = some (.int (-1)) := rfl
example : jsonLoads " null " = some .none := rfl
example : jsonLoads "[1, 2]" = some (.list [.int 1, .int 2]) := rfl
example : jsonLoads "1.5" = some (.float ⟨15, 1⟩) := rfl
example : jsonLoads "" = Option.none := rfl
example : jsonLoads "79.99 USD" = Option.none := rfl

/-! Dates: models of `datetime.fromisoformat` (the pre-3.11 grammar, the
subset every CPython version accepts), `datetime.strptime(s, "%Y-%m-%d")`,
and datetime comparison, which raises `TypeError` between an offset-naive
and an offset-aware datetime. -/

/-- A Python `datetime`; `tzOffset` is the UTC offset in minutes,
`Option.none` for a naive datetime. -/
structure PyDateTime where
  year : ℕ
  month : ℕ
  day : ℕ
  hour : ℕ
  minute : ℕ
  second : ℕ
  microsec : ℕ
  tzOffset : Option ℤ
deriving Repr, DecidableEq, Inhabited

/-- Gregorian leap year. -/
def isLeapYear (y : ℕ) : Bool := y % 4 = 0 && (y % 100 ≠ 0 || y % 400 = 0)

/-- Days in a month of the proleptic Gregorian calendar. -/
def daysInMonth (y m : ℕ) : ℕ :=
  if m = 2 then (if isLeapYear y then 29 else 28)
  else if m = 4 || m = 6 || m = 9 || m = 11 then 30
  else 31

/-- Days in year `y` before month `m`. -/
def cumDays (y m : ℕ) : ℕ :=
  (List.range (m - 1)).foldl (fun acc i => acc + daysInMonth y (i + 1)) 0

/-- Proleptic Gregorian ordinal (0001-01-01 is day 1), as in `datetime`. -/
def toOrdinal (y m d : ℕ) : ℕ :=
  (y - 1) * 365 + (y - 1) / 4 - (y - 1) / 100 + (y - 1) / 400 + cumDays y m + d

/-- Microseconds since the epoch of the proleptic calendar, in UTC for an
aware datetime (naive datetimes use offset 0; they are only ever compared
with each other). -/
def PyDateTime.utcMicros (t : PyDateTime) : ℤ :=
  ((((toOrdinal t.year t.month t.day : ℤ) * 24 + t.hour) * 60 + t.minute
      - t.tzOffset.getD 0) * 60 + t.second) * 1000000 + t.microsec

/-- Python datetime comparison: `TypeError` between naive and aware. -/
def dtCompare (a b : PyDateTime) : Except PyErr Ordering :=
  match a.tzOffset, b.tzOffset with
  | Option.none, Option.none => .ok (compare a.utcMicros b.utcMicros)
  | some _, some _ => .ok (compare a.utcMicros b.utcMicros)
  | _, _ => .error .typeError

/-- Python `a <= b` on datetimes. -/
def dtLe (a b : PyDateTime) : Except PyErr Bool :=
  (dtCompare a b).map (fun o => o ≠ Ordering.gt)

/-- Python `a >= b` on datetimes. -/
def dtGe (a b : PyDateTime) : Except PyErr Bool :=
  (dtCompare a b).map (fun o => o ≠ Ordering.lt)

/-- Two decimal digits. -/
def takeDigits2 : List Char → Option (ℕ × List Char)
  | a :: b :: t =>
    if a.isDigit && b.isDigit then some ((a.toNat - 48) * 10 + (b.toNat - 48), t)
    else Option.none
  | _ => Option.none

/-- Four decimal digits. -/
def takeDigits4 (cs : List Char) : Option (ℕ × List Char) := do
  let (hi, cs1) ← takeDigits2 cs
  let (lo, cs2) ← takeDigits2 cs1
  pure (hi * 100 + lo, cs2)

/-- Trailing UTC offset `±HH:MM` (or nothing at all) of an ISO string. -/
def parseIsoTail (cs : List Char) : Option (Option ℤ) :=
  match cs with
  | [] => some Option.none
  | sgn :: t =>
    if sgn = '+' || sgn = '-' then do
      let (oh, t1) ← takeDigits2 t
      let t2 ← match t1 with
               | ':' :: r => some r
               | _ => Option.none
      let (om, t3) ← takeDigits2 t2
      if t3.isEmpty && oh ≤ 23 && om ≤ 59 then
        let mins : ℤ := oh * 60 + om
        some (some (if sgn = '-' then -mins else mins))
      else Option.none
    else Option.none

/-- Optional fraction `.fff` or `.ffffff` of an ISO time, as microseconds. -/
def parseIsoFrac (cs : List Char) : Option (ℕ × List Char) :=
  match cs with
  | '.' :: t =>
    let (ds, r) := t.span (·.isDigit)
    if ds.length = 3 then some (digitsToNat ds * 1000, r)
    else if ds.length = 6 then some (digitsToNat ds, r)
    else Option.none
  | t => some (0, t)

/-- Time-of-day part `HH:MM[:SS[.fff[fff]]]` plus optional offset. -/
def parseIsoTime (y m d : ℕ) (cs : List Char) : Option PyDateTime := do
  let (hh, cs1) ← takeDigits2 cs
  let cs2 ← match cs1 with
            | ':' :: r => some r
            | _ => Option.none
  let (mi, cs3) ← takeDigits2 cs2
  if hh ≥ 24 || mi ≥ 60 then Option.none
  else
    match cs3 with
    | ':' :: cs4 => do
      let (ss, cs5) ← takeDigits2 cs4
      if ss ≥ 60 then Option.none
      else do
        let (us, cs6) ← parseIsoFrac cs5
        let off ← parseIsoTail cs6
        pure ⟨y, m, d, hh, mi, ss, us, off⟩
    | rest => do
      let off ← parseIsoTail rest
      pure ⟨y, m, d, hh, mi, 0, 0, off⟩

/-- Model of `datetime.fromisoformat`: `YYYY-MM-DD`, optionally followed by
a separator (`T` or a space) and `HH:MM[:SS[.fff[fff]]][±HH:MM]`. -/
def fromisoformatModel (s : String) : Option PyDateTime := do
  let cs := s.toList
  let (y, cs1) ← takeDigits4 cs
  let cs2 ← match cs1 with
            | '-' :: r => some r
            | _ => Option.none
  let (m, cs3) ← takeDigits2 cs2
  let cs4 ← match cs3 with
            | '-' :: r => some r
            | _ => Option.none
  let (d, cs5) ← takeDigits2 cs4
  if y < 1 || m < 1 || m > 12 || d < 1 || d > daysInMonth y m then Option.none
  else
    match cs5 with
    | [] => pure ⟨y, m, d, 0, 0, 0, 0, Option.none⟩
    | sep :: t =>
      if sep = 'T' || sep = ' ' then parseIsoTime y m d t else Option.none

/-- One or two digits bounded by `hi`, as matched by `%m` / `%d`. -/
def takeDigits12 (hi : ℕ) (cs : List Char) : Option (ℕ × List Char) :=
  let (ds, r) := cs.span (·.isDigit)
  if (ds.length = 1 || ds.length = 2) && 1 ≤ digitsToNat ds && digitsToNat ds ≤ hi then
    some (digitsToNat ds, r)
  else Option.none

/-- Model of `datetime.strptime(s, "%Y-%m-%d")`: four-digit year, one or two
digit month and day, the whole string consumed, a real calendar date. -/
def strptimeYmdModel (s : String) : Option PyDateTime := do
  let cs := s.toList
  let (yd, cs1) := cs.span (·.isDigit)
  if yd.length ≠ 4 then Option.none
  else do
    let y := digitsToNat yd
    let cs2 ← match cs1 with
              | '-' :: r => some r
              | _ => Option.none
    let (m, cs3) ← takeDigits12 12 cs2
    let cs4 ← match cs3 with
              | '-' :: r => some r
              | _ => Option.none
    let (d, cs5) ← takeDigits12 31 cs4
    if cs5.isEmpty && 1 ≤ y && d ≤ daysInMonth y m then
      pure ⟨y, m, d, 0, 0, 0, 0, Option.none⟩
    else Option.none

/-- `parse_iso_date` of utils/rules.py and app.py: `fromisoformat`, falling
back to `strptime("%Y-%m-%d")`, `None` when both raise. -/
def parse_iso_date (s : String) : Option PyDateTime :=
  match fromisoformatModel s with
  | some d => some d
  | Option.none => strptimeYmdModel s

/-- `is_iso8601_date` of utils/rules.py and app.py (the argument at every
call site is already a string). -/
def is_iso8601_date (s : String) : Bool :=
  if s = "" then false
  else (fromisoformatModel s).isSome || (strptimeYmdModel s).isSome

example : fromisoformatModel "2020-01-01" = some ⟨2020, 1, 1, 0, 0, 0, 0, Option.none⟩ := rfl
example : fromisoformatModel "2020-01-01T00:00:00+00:00" =
    some ⟨2020, 1, 1, 0, 0, 0, 0, some 0⟩ := rfl
example : fromisoformatModel "2021-02-30" = Option.none := rfl
example : fromisoformatModel "2020-1-1" = Option.none := rfl
example : strptimeYmdModel "2020-1-1" = some ⟨2020, 1, 1, 0, 0, 0, 0, Option.none⟩ := rfl
example : strptimeYmdModel "2020-01-01" = some ⟨2020, 1, 1, 0, 0, 0, 0, Option.none⟩ := rfl
example : is_iso8601_date "not a date" = false := rfl
example : dtCompare ⟨2024, 1, 2, 0, 0, 0, 0, Option.none⟩ ⟨2024, 1, 1, 0, 0, 0, 0, Option.none⟩ =
    .ok .gt := rfl
example : dtCompare ⟨2020, 1, 1, 0, 0, 0, 0, Option.none⟩ ⟨2026, 10, 12, 0, 0, 0, 0, some 0⟩ =
    .error .typeError := rfl

/-! URL checking (`is_url` of app.py and utils/rules.py) over a model of
`urllib.parse.urlparse`. -/

/-- Characters allowed in a URL scheme. -/
def isSchemeChar (c : Char) : Bool :=
  c.isAlpha || c.isDigit || c = '+' || c = '-' || c = '.'

/-- Split off `scheme:` when the text before the first colon is a valid
scheme, as `urlparse` does; otherwise the scheme is empty. -/
def splitScheme (cs : List Char) : Option (List Char × List Char) :=
  let (pre, rest) := cs.span (· ≠ ':')
  match rest with
  | ':' :: after =>
    (match pre with
     | c0 :: _ => if c0.isAlpha && pre.all isSchemeChar then some (pre, after) else Option.none
     | [] => Option.none)
  | _ => Option.none

/-- The netloc of what follows `scheme:`: after `//`, up to `/`, `?` or `#`. -/
def netlocOf (cs : List Char) : List Char :=
  match cs with
  | '/' :: '/' :: t => t.takeWhile (fun c => c ≠ '/' && c ≠ '?' && c ≠ '#')
  | _ => []

/-- `is_url` of app.py and utils/rules.py: truthy, scheme `http` or `https`,
non-empty netloc. -/
def is_url (v : PyValue) : Bool :=
  truthy v &&
    (match splitScheme (pyStr v).toList with
     | some (sch, rest) =>
       (strLower sch.asString = "http" || strLower sch.asString = "https") &&
         ¬ (netlocOf rest).isEmpty
     | Option.none => false)

example : is_url (.str "https://example.com/p") = true := rfl
example : is_url (.str "http://example.com") = true := rfl
example : is_url (.str "ftp://example.com") = false := rfl
example : is_url (.str "example.com") = false := rfl
example : is_url (.str "https://") = false := rfl
example : is_url (.str "") = false := rfl
example : is_url .none = false := rfl

/-! Models of the regular expressions the validator uses. -/

/-- Model of a match of `^\s*([0-9]+(?:\.[0-9]+)?)\s*([A-Z]{3})?\s*$`:
the amount and the optional three-letter currency. -/
def priceRegexMatch (s : String) : Option (Dec × Option String) :=
  let cs := s.toList.dropWhile isPySpace
  let (ip, cs1) := cs.span (·.isDigit)
  if ip.isEmpty then Option.none
  else
    let (fp, cs2) : List Char × List Char :=
      match cs1 with
      | '.' :: t =>
        let (ds, r) := t.span (·.isDigit)
        if ds.isEmpty then ([], cs1) else (ds, r)
      | t => ([], t)
    let amount : Dec := ⟨((digitsToNat ip * 10 ^ fp.length + digitsToNat fp : ℕ) : ℤ), fp.length⟩
    let cs3 := cs2.dropWhile isPySpace
    match cs3 with
    | a :: b :: c :: rest =>
      if a.isUpper && b.isUpper && c.isUpper && (rest.dropWhile isPySpace).isEmpty then
        some (amount, some ([a, b, c].asString))
      else Option.none
    | [] => some (amount, Option.none)
    | _ => Option.none

example : priceRegexMatch "79.99 USD" = some (⟨7999, 2⟩, some "USD") := rfl
example : priceRegexMatch "79.99" = some (⟨7999, 2⟩, Option.none) := rfl
example : priceRegexMatch "79.99USD" = some (⟨7999, 2⟩, some "USD") := rfl
example : priceRegexMatch "-1" = Option.none := rfl
example : priceRegexMatch "1 USDX" = Option.none := rfl
example : priceRegexMatch "1 US" = Option.none := rfl
example : priceRegexMatch "0" = some (⟨0, 0⟩, Option.none) := rfl

/-- Model of a full match of `^[A-Z]{3}$`. -/
def currencyRegex3 (s : String) : Bool :=
  s.length = 3 && s.toList.all (·.isUpper)

/-- Model of a full match of `^[0-9]{8,14}$`. -/
def gtinRegexMatch (s : String) : Bool :=
  8 ≤ s.length && s.length ≤ 14 && s.toList.all (·.isDigit)

/-- Python `str.rstrip()` (ASCII whitespace). -/
def rstripWs (s : String) : String :=
  ((s.toList.reverse.dropWhile isPySpace).reverse).asString

/-- Python `str.lstrip()` (ASCII whitespace). -/
def lstripWs (s : String) : String := (s.toList.dropWhile isPySpace).asString

/-- Tail pieces of `re.split(r"\s*/\s*", s)`: middles trimmed on both sides,
the final piece only on the left. -/
def splitSlashAux : List String → List String
  | [] => []
  | [y] => [lstripWs y]
  | y :: ys => lstripWs (rstripWs y) :: splitSlashAux ys

/-- Model of `re.split(r"\s*/\s*", s)`: split on `/`, the whitespace
adjacent to each slash being consumed by the separator. -/
def regexSplitSlash (s : String) : List String :=
  match splitOnChar '/' s with
  | [] => [s]
  | [x] => [x]
  | x :: xs => rstripWs x :: splitSlashAux xs

example : regexSplitSlash "2024-01-01 / 2024-06-30" = ["2024-01-01", "2024-06-30"] := rfl
example : regexSplitSlash "a / / b" = ["a", "", "b"] := rfl
example : regexSplitSlash " a/b" = [" a", "b"] := rfl
example : regexSplitSlash "nodate" = ["nodate"] := rfl

/-! Record field access. -/

/-- `safe_get` of app.py: case-insensitive scan in iteration order, `None`
when no key matches. -/
def safe_get : Record → String → PyValue
  | [], _ => .none
  | (k, v) :: rest, key => if strLower k = strLower key then v else safe_get rest key

/-- Python `p.get(key)` as the validators package uses it: exact key match
in iteration order, `None` when absent. -/
def pget : Record → String → PyValue
  | [], _ => .none
  | (k, v) :: rest, key => if k = key then v else pget rest key

example : safe_get [("ID", .str "x")] "id" = .str "x" := rfl
example : pget [("ID", .str "x")] "id" = .none := rfl

/-! The two price parsers. -/

/-- Token fallback of the price parsers of app.py: whitespace-split, first
token a float, second token a currency only when it matches `^[A-Z]{3}$`. -/
def extractPriceTokens (s : String) : Option Dec × PyValue :=
  match pySplitWs s with
  | [] => (Option.none, .none)
  | p0 :: restParts =>
    match parseFloatStr p0 with
    | some v =>
      (some v, match restParts with
               | c :: _ => if currencyRegex3 c then .str c else .none
               | [] => .none)
    | Option.none => (Option.none, .none)

/-- `extract_price_and_currency` of app.py.  The first component is the
parsed amount (`None` when parsing fails), the second the currency as a
Python value (`None` when absent). -/
def extract_price_and_currency (value : PyValue) : Option Dec × PyValue :=
  match value with
  | .none => (Option.none, .none)
  | _ =>
    let s := pyStrip (pyStr value)
    match priceRegexMatch s with
    | some (v, cur) =>
      (some v, match cur with
               | some c => .str c
               | Option.none => .none)
    | Option.none =>
      -- json-like tier: json.loads, a dict with a "value" key, float() of it
      match jsonLoads s with
      | some (.dict kvs) =>
        (match dictLookup kvs "value" with
         | some v =>
           (match pyFloat v with
            | some f => (some f, dictGetD kvs "currency")
            | Option.none => extractPriceTokens s)
         | Option.none => extractPriceTokens s)
      | _ => extractPriceTokens s

example : extract_price_and_currency (.str "79.99 USD") = (some ⟨7999, 2⟩, .str "USD") := rfl
example : extract_price_and_currency (.str "79.99") = (some ⟨7999, 2⟩, .none) := rfl
example : extract_price_and_currency (.str "-1") = (some ⟨-1, 0⟩, .none) := rfl
example : extract_price_and_currency .none = (Option.none, .none) := rfl
example : extract_price_and_currency (.str "") = (Option.none, .none) := rfl
example : extract_price_and_currency (.int 0) = (some ⟨0, 0⟩, .none) := rfl

/-- `parse_price` of validators/pricing.py: like app.py's parser except that
the token fallback takes any second token as the currency. -/
def parsePriceTokens (s : String) : Option Dec × PyValue :=
  match pySplitWs s with
  | [] => (Option.none, .none)
  | p0 :: restParts =>
    match parseFloatStr p0 with
    | some v =>
      (some v, match restParts with
               | c :: _ => .str c
               | [] => .none)
    | Option.none => (Option.none, .none)

/-- `parse_price` of validators/pricing.py. -/
def parse_price (value : PyValue) : Option Dec × PyValue :=
  match value with
  | .none => (Option.none, .none)
  | _ =>
    let s := pyStrip (pyStr value)
    match priceRegexMatch s with
    | some (v, cur) =>
      (some v, match cur with
               | some c => .str c
               | Option.none => .none)
    | Option.none =>
      match jsonLoads s with
      | some (.dict kvs) =>
        (match dictLookup kvs "value" with
         | some v =>
           (match pyFloat v with
            | some f => (some f, dictGetD kvs "currency")
            | Option.none => parsePriceTokens s)
         | Option.none => parsePriceTokens s)
      | _ => parsePriceTokens s

example : parse_price (.str "79.99 USD") = (some ⟨7999, 2⟩, .str "USD") := rfl
example : parse_price (.str "79.99") = (some ⟨7999, 2⟩, .none) := rfl
example : parse_price (.str "-1") = (some ⟨-1, 0⟩, .none) := rfl
example : parse_price (.int 0) = (some ⟨0, 0⟩, .none) := rfl

/-- `is_positive_integer_str` of app.py: `int(s) >= 0`, `False` when the
conversion raises. -/
def is_positive_integer_str (v : PyValue) : Bool :=
  match pyInt v with
  | some n => 0 ≤ n
  | Option.none => false

/-- Python `v is None`. -/
def isNone : PyValue → Bool
  | .none => true
  | _ => false

/-- Python `isinstance(v, str)`. -/
def isStr : PyValue → Bool
  | .str _ => true
  | _ => false

/-! The validators package: one pure function per rule module (the
fulfillment module can raise, see below), each returning
`(errors, warnings, rows)` exactly as the source does. -/

/-- A field-status row `{'Field': ..., 'Value': ...}`. -/
structure Row where
  Field : String
  Value : PyValue

/-- validators/flags.py. -/
def validate_flags (p : Record) : List String × List String × List Row :=
  let es := pget p "enable_search"
  let ec := pget p "enable_checkout"
  let warnings :=
    (if isNone es then
       ["enable_search recommended but not present; must be lower-case string true/false"]
     else []) ++
    (if isNone ec then
       ["enable_checkout recommended but not present; must be lower-case string true/false"]
     else [])
  let errors :=
    if truthy ec && ¬ truthy es then
      ["enable_checkout cannot be true when enable_search is not true"]
    else []
  (errors, warnings, [⟨"enable_search", es⟩, ⟨"enable_checkout", ec⟩])

/-- validators/basic.py. -/
def validate_basic (p : Record) : List String × List String × List Row :=
  let idv := pget p "id"
  let (e1, w1) :=
    if inNoneOrEmpty idv then (["Missing required field: id"], [])
    else if (pyStr idv).length > 100 then ([], ["id exceeds 100 chars"])
    else ([], [])
  let gtin := pget p "gtin"
  let w2 :=
    if ¬ truthy gtin then ["gtin recommended"]
    else if ¬ gtinRegexMatch (pyStr gtin) then ["gtin should be 8-14 digits"]
    else []
  let mpn := pget p "mpn"
  let e3 := if ¬ truthy gtin && ¬ truthy mpn then ["Either 'gtin' or 'mpn' must be present"] else []
  let w3 := if truthy mpn && (pyStr mpn).length > 70 then ["mpn exceeds 70 chars"] else []
  let title := pget p "title"
  let (e4, w4) :=
    if ¬ truthy title then (["Missing required field: title"], [])
    else if (pyStr title).length > 150 then ([], ["title exceeds 150 chars"])
    else ([], [])
  let desc := pget p "description"
  let e5 :=
    if ¬ truthy desc then ["Missing required field: description"]
    else if (pyStr desc).length > 5000 then ["description exceeds 5000 chars"]
    else []
  let link := pget p "link"
  let e6 :=
    if ¬ truthy link then ["Missing required field: link"]
    else if ¬ is_url link then ["link must be valid http(s) URL"]
    else []
  (e1 ++ e3 ++ e4 ++ e5 ++ e6, w1 ++ w2 ++ w3 ++ w4,
   [⟨"id", idv⟩, ⟨"gtin", gtin⟩, ⟨"mpn", mpn⟩, ⟨"title", title⟩,
    ⟨"description", desc⟩, ⟨"link", link⟩])

/-- validators/item_info.py. -/
def validate_item_info (p : Record) : List String × List String × List Row :=
  let condition := pget p "condition"
  let w1 :=
    if truthy condition &&
        ¬ (isStrEq condition "new" || isStrEq condition "refurbished" || isStrEq condition "used") then
      ["condition should be new/refurbished/used"]
    else []
  let cat := pyOr (pyOr (pget p "product_category") (pget p "category")) (pget p "google_product_category")
  let w2 := if ¬ truthy cat then ["product_category recommended"] else []
  let brand := pget p "brand"
  let w3 :=
    if ¬ truthy brand then ["brand recommended"]
    else if (pyStr brand).length > 70 then ["brand exceeds 70 chars"]
    else []
  let mat := pget p "material"
  let w4 := if ¬ truthy mat then ["material recommended"] else []
  let weight := pyOr (pget p "weight") (pget p "shipping_weight")
  let w5 := if ¬ truthy weight then ["weight recommended"] else []
  let age := pget p "age_group"
  let w6 :=
    if truthy age &&
        ¬ (isStrEq age "newborn" || isStrEq age "infant" || isStrEq age "toddler" ||
           isStrEq age "kids" || isStrEq age "adult") then
      ["age_group should be one of newborn, infant, toddler, kids, adult"]
    else []
  ([], w1 ++ w2 ++ w3 ++ w4 ++ w5 ++ w6,
   [⟨"condition", condition⟩, ⟨"product_category", cat⟩, ⟨"brand", brand⟩,
    ⟨"material", mat⟩, ⟨"weight", weight⟩, ⟨"age_group", age⟩])

/-- validators/media.py. -/
def validate_media (p : Record) : List String × List String × List Row :=
  let img := pget p "image_link"
  let e1 :=
    if ¬ truthy img then ["Missing required field: image_link"]
    else if ¬ is_url img then ["image_link must be a valid URL"]
    else []
  let add := pget p "additional_image_link"
  let w2 :=
    if truthy add then
      let arr : List PyValue :=
        match add with
        | .str s =>
          if s.toList.contains ',' then
            (((splitOnChar ',' s).map pyStrip).filter (· ≠ "")).map PyValue.str
          else [add]
        | .list xs => xs
        | v => [v]
      if arr.any (fun u => ¬ is_url u) then ["additional_image_link contains invalid URL"] else []
    else []
  let video := pget p "video_link"
  let w3 := if truthy video && ¬ is_url video then ["video_link not valid URL"] else []
  let model3 := pget p "model_3d_link"
  let w4 := if truthy model3 && ¬ is_url model3 then ["model_3d_link not valid URL"] else []
  (e1, w2 ++ w3 ++ w4,
   [⟨"image_link", img⟩, ⟨"additional_image_link", add⟩, ⟨"video_link", video⟩,
    ⟨"model_3d_link", model3⟩])

/-- validators/pricing.py, `validate_pricing`. -/
def validate_pricing (p : Record) : List String × List String × List Row :=
  let price := pget p "price"
  let pv := (parse_price price).1
  let pc := (parse_price price).2
  let e1 :=
    match pv with
    | Option.none => ["Missing or invalid required field: price"]
    | some v =>
      (if Dec.isNeg v then ["price must be non-negative"] else []) ++
      (if ¬ truthy pc then ["price must include ISO 4217 currency code per spec"] else [])
  let sale := pget p "sale_price"
  let e2 :=
    if truthy sale then
      match (parse_price sale).1 with
      | Option.none => ["sale_price present but not parseable"]
      | some sv =>
        match pv with
        | some v => if Dec.lt v sv then ["sale_price must be <= price"] else []
        | Option.none => []
    else []
  let sale_eff := pget p "sale_price_effective_date"
  let e3 :=
    if truthy sale && truthy sale_eff then
      match regexSplitSlash (pyStr sale_eff) with
      | [a, b] =>
        if ¬ is_iso8601_date a || ¬ is_iso8601_date b then
          ["sale_price_effective_date dates must be ISO 8601"]
        else []
      | _ => ["sale_price_effective_date must be range start/end"]
    else []
  let upm := pget p "unit_pricing_measure"
  let w4 :=
    if truthy upm && ¬ isStr upm then
      ["unit_pricing_measure should be string like \"16 oz / 1 oz\""]
    else []
  (e1 ++ e2 ++ e3, w4,
   [⟨"price", price⟩, ⟨"sale_price", sale⟩, ⟨"sale_price_effective_date", sale_eff⟩,
    ⟨"unit_pricing_measure", upm⟩])

/-- validators/availability.py. -/
def validate_availability (p : Record) : List String × List String × List Row :=
  let availability := pget p "availability"
  let e1 :=
    if ¬ truthy availability then ["Missing required field: availability"]
    else if ¬ (isStrEq availability "in_stock" || isStrEq availability "out_of_stock" ||
               isStrEq availability "preorder") then
      ["availability must be one of in_stock, out_of_stock, preorder"]
    else []
  let e2 :=
    if isStrEq availability "preorder" then
      let ad := pget p "availability_date"
      if ¬ truthy ad then ["availability_date required for preorder"]
      else if ¬ is_iso8601_date (pyStr ad) then ["availability_date must be ISO 8601"]
      else []
    else []
  let inv := pget p "inventory_quantity"
  let e3 :=
    if isNone inv || ¬ isDigitStr (pyStr inv) then
      ["inventory_quantity must be a non-negative integer"]
    else []
  let exp := pget p "expiration_date"
  let w4 := if truthy exp && ¬ is_iso8601_date (pyStr exp) then ["expiration_date should be ISO 8601"] else []
  (e1 ++ e2 ++ e3, w4,
   [⟨"availability", availability⟩, ⟨"inventory_quantity", inv⟩, ⟨"expiration_date", exp⟩])

/-- validators/variants.py. -/
def validate_variants (p : Record) : List String × List String × List Row :=
  let item_group := pget p "item_group_id"
  let variant_fields :=
    truthy (pget p "color") || truthy (pget p "size") || truthy (pget p "offer_id")
  let e1 := if variant_fields && ¬ truthy item_group then ["item_group_id required when variants exist"] else []
  let w2 :=
    if truthy (pget p "color") && (pyStr (pget p "color")).length > 40 then
      ["color exceeds 40 chars"]
    else []
  let w3 :=
    if truthy (pget p "size") && (pyStr (pget p "size")).length > 20 then
      ["size exceeds 20 chars"]
    else []
  (e1, w2 ++ w3,
   [⟨"item_group_id", item_group⟩, ⟨"color", pget p "color"⟩, ⟨"size", pget p "size"⟩])

/-- The shipping loop of validators/fulfillment.py: `s.split(':')` raises
`AttributeError` when an entry of a shipping list is not a string. -/
def shippingEntryWarns : List PyValue → Except PyErr (List String)
  | [] => .ok []
  | s :: rest => do
    let sStr ← match s with
               | .str t => Except.ok t
               | _ => Except.error PyErr.attributeError
    let parts := splitOnChar ':' sStr
    let ws ← shippingEntryWarns rest
    pure ((if parts.length < 4 then
             ["shipping entry '" ++ sStr ++ "' expected 'country:region:service_class:price'"]
           else []) ++ ws)

/-- validators/fulfillment.py. -/
def validate_fulfillment (p : Record) : Except PyErr (List String × List String × List Row) := do
  let shipping := pget p "shipping"
  let w1 ←
    if truthy shipping then
      let entries : List PyValue :=
        match shipping with
        | .list xs => xs
        | v => ((((splitOnChar ',' (pyStr v)).map pyStrip).filter (· ≠ "")).map PyValue.str)
      shippingEntryWarns entries
    else pure []
  let de := pget p "delivery_estimate"
  let w2 := if truthy de && ¬ is_iso8601_date (pyStr de) then ["delivery_estimate should be ISO 8601 date"] else []
  pure ([], w1 ++ w2, [⟨"shipping", shipping⟩, ⟨"delivery_estimate", de⟩])

/-- validators/merchant.py. -/
def validate_merchant (p : Record) : List String × List String × List Row :=
  let seller := pget p "seller_name"
  let w1 := if ¬ truthy seller then ["seller_name recommended"] else []
  let seller_url := pget p "seller_url"
  let w2 := if truthy seller_url && ¬ is_url seller_url then ["seller_url should be a valid URL"] else []
  ([], w1 ++ w2, [⟨"seller_name", seller⟩, ⟨"seller_url", seller_url⟩])

/-- validators/returns.py. -/
def validate_returns (p : Record) : List String × List String × List Row :=
  let rp := pget p "return_policy"
  let w1 := if truthy rp && ¬ isStr rp then ["return_policy should be a URL string"] else []
  let rwin := pget p "return_window"
  let e2 :=
    if truthy rwin then
      match pyInt rwin with
      | some n => if n ≤ 0 then ["return_window must be a positive integer"] else []
      | Option.none => ["return_window must be an integer representing days"]
    else []
  (e2, w1, [⟨"return_policy", rp⟩, ⟨"return_window", rwin⟩])

/-- validators/performance.py. -/
def validate_performance (p : Record) : List String × List String × List Row :=
  let pop := pget p "popularity_score"
  let w1 :=
    if ¬ isNone pop then
      match pyFloat pop with
      | some _ => []
      | Option.none => ["popularity_score should be numeric"]
    else []
  let rr := pget p "return_rate"
  let w2 :=
    if ¬ isNone rr then
      let fv : Option Dec :=
        match rr with
        | .str s => parseFloatStr (pyStripChar '%' s)
        | v => pyFloat v
      match fv with
      | some v =>
        if Dec.isNeg v || Dec.lt ⟨100, 0⟩ v then ["return_rate should be 0-100%"] else []
      | Option.none => ["return_rate should be numeric or percent string"]
    else []
  ([], w1 ++ w2, [⟨"popularity_score", pop⟩, ⟨"return_rate", rr⟩])

/-- validators/compliance.py. -/
def validate_compliance (p : Record) : List String × List String × List Row :=
  let warning_text := pget p "warning"
  let warning_url := pget p "warning_url"
  let w1 := if truthy warning_url && ¬ is_url warning_url then ["warning_url should be a valid URL"] else []
  let age := pget p "age_restriction"
  let w2 :=
    if truthy age then
      match pyInt age with
      | some n => if n ≤ 0 then ["age_restriction should be positive integer"] else []
      | Option.none => ["age_restriction should be integer"]
    else []
  ([], w1 ++ w2,
   [⟨"warning", warning_text⟩, ⟨"warning_url", warning_url⟩, ⟨"age_restriction", age⟩])

/-- validators/reviews.py. -/
def validate_reviews (p : Record) : List String × List String × List Row :=
  let prc := pget p "product_review_count"
  let w1 :=
    if ¬ isNone prc then
      match pyInt prc with
      | some n => if n < 0 then ["product_review_count must be non-negative"] else []
      | Option.none => ["product_review_count should be integer"]
    else []
  let prr := pget p "product_review_rating"
  let w2 :=
    if ¬ isNone prr then
      match pyFloat prr with
      | some v =>
        if Dec.isNeg v || Dec.lt ⟨5, 0⟩ v then ["product_review_rating should be between 0 and 5"] else []
      | Option.none => ["product_review_rating should be numeric"]
    else []
  ([], w1 ++ w2,
   [⟨"product_review_count", prc⟩, ⟨"product_review_rating", prr⟩,
    ⟨"q_and_a", pget p "q_and_a"⟩, ⟨"raw_review_data", pget p "raw_review_data"⟩])

/-- validators/related.py. -/
def validate_related (p : Record) : List String × List String × List Row :=
  let rel := pget p "related_product_id"
  let rt := pget p "relationship_type"
  let w :=
    if truthy rt &&
        ¬ (isStrEq rt "part_of_set" || isStrEq rt "required_part" ||
           isStrEq rt "often_bought_with" || isStrEq rt "substitute" ||
           isStrEq rt "different_brand" || isStrEq rt "accessory") then
      ["relationship_type value unexpected"]
    else []
  ([], w, [⟨"related_product_id", rel⟩, ⟨"relationship_type", rt⟩])

/-- validators/geo.py. -/
def validate_geo (p : Record) : List String × List String × List Row :=
  let gp := pget p "geo_price"
  let w1 :=
    if truthy gp && ¬ ((pyStr gp).toList.any (·.isAlpha)) then
      ["geo_price expected to include currency code or region note"]
    else []
  let ga := pget p "geo_availability"
  let w2 :=
    if truthy ga && ¬ isStr ga then
      ["geo_availability should be string like \"US:in_stock\""]
    else []
  ([], w1 ++ w2, [⟨"geo_price", gp⟩, ⟨"geo_availability", ga⟩])

/-- The result dict of `run_all_validations`. -/
structure RunAllResult where
  errors : List String
  warnings : List String
  infos : List String
  fields : List Row

/-- validators/__init__.py, `run_all_validations`: the fifteen modules in
their fixed order, outputs concatenated (`infos` is never appended to). -/
def run_all_validations (p : Record) : Except PyErr RunAllResult := do
  let t1 := validate_flags p
  let t2 := validate_basic p
  let t3 := validate_item_info p
  let t4 := validate_media p
  let t5 := validate_pricing p
  let t6 := validate_availability p
  let t7 := validate_variants p
  let t8 ← validate_fulfillment p
  let t9 := validate_merchant p
  let t10 := validate_returns p
  let t11 := validate_performance p
  let t12 := validate_compliance p
  let t13 := validate_reviews p
  let t14 := validate_related p
  let t15 := validate_geo p
  pure ⟨t1.1 ++ t2.1 ++ t3.1 ++ t4.1 ++ t5.1 ++ t6.1 ++ t7.1 ++ t8.1 ++ t9.1 ++ t10.1 ++
          t11.1 ++ t12.1 ++ t13.1 ++ t14.1 ++ t15.1,
        t1.2.1 ++ t2.2.1 ++ t3.2.1 ++ t4.2.1 ++ t5.2.1 ++ t6.2.1 ++ t7.2.1 ++ t8.2.1 ++
          t9.2.1 ++ t10.2.1 ++ t11.2.1 ++ t12.2.1 ++ t13.2.1 ++ t14.2.1 ++ t15.2.1,
        [],
        t1.2.2 ++ t2.2.2 ++ t3.2.2 ++ t4.2.2 ++ t5.2.2 ++ t6.2.2 ++ t7.2.2 ++ t8.2.2 ++
          t9.2.2 ++ t10.2.2 ++ t11.2.2 ++ t12.2.2 ++ t13.2.2 ++ t14.2.2 ++ t15.2.2⟩

/-! `validate_product` of app.py.  Every field read in its body goes through
`safe_get(p, key)`, so the body is stated over the lookup function
`g = fun k => safe_get p k`. -/

/-- The shipping loop of app.py's `validate_product`: split on `:` (raising
`AttributeError` on a non-string entry of a shipping list), warn on fewer
than four parts, else warn when the fourth part has no parseable price. -/
def appShippingWarns : List PyValue → Except PyErr (List String)
  | [] => .ok []
  | s :: rest => do
    let sStr ← match s with
               | .str t => Except.ok t
               | _ => Except.error PyErr.attributeError
    let parts := splitOnChar ':' sStr
    let cur :=
      if parts.length < 4 then
        ["shipping entry '" ++ sStr ++ "' expected 'country:region:service_class:price'"]
      else
        match (extract_price_and_currency (.str (parts.getD 3 ""))).1 with
        | some _ => []
        | Option.none => ["shipping entry price not parseable in '" ++ sStr ++ "'"]
    let ws ← appShippingWarns rest
    pure (cur ++ ws)

/-- The preorder block of app.py's `validate_product`: when availability is
`preorder`, require a parseable ISO `availability_date` strictly after the
clock (the comparison raises `TypeError` when the parsed date is naive,
since `datetime.now(timezone.utc)` is aware). -/
def preorderCheck (now : PyDateTime) (availability avail_date : PyValue) :
    Except PyErr (List String) :=
  if pyStr availability = "preorder" then
    if ¬ truthy avail_date then
      Except.ok ["availability_date is required when availability='preorder'"]
    else if ¬ is_iso8601_date (pyStr avail_date) then
      Except.ok ["availability_date must be a valid ISO 8601 date"]
    else
      match parse_iso_date (pyStr avail_date) with
      | some dt =>
        (dtLe dt now).map (fun le =>
          if le then ["availability_date must be a future date for preorder items"] else [])
      | Option.none => Except.ok []
  else Except.ok []

/-- The sale-price block of app.py's `validate_product`: `(errors,
warnings)` (the `>=` comparison of the two range dates raises `TypeError`
when exactly one of them is naive). -/
def saleCheck (price_val : Option Dec) (sale_price sale_eff : PyValue) :
    Except PyErr (List String × List String) :=
  if ¬ inNoneOrEmpty sale_price then
    let eS1 :=
      match (extract_price_and_currency sale_price).1 with
      | Option.none => ["sale_price provided but not parseable as number + optional currency"]
      | some sv =>
        match price_val with
        | some pvv => if Dec.lt pvv sv then ["sale_price must be less than or equal to price"] else []
        | Option.none => []
    if ¬ truthy sale_eff then
      Except.ok (eS1, ["sale_price provided but sale_price_effective_date is missing (recommended)"])
    else
      match regexSplitSlash (pyStr sale_eff) with
      | [a, b] =>
        (match parse_iso_date a, parse_iso_date b with
         | some s_dt, some e_dt =>
           (dtGe s_dt e_dt).map (fun ge =>
             (eS1 ++ (if ge then ["sale_price_effective_date start must be before end"] else []),
              ([] : List String)))
         | _, _ =>
           Except.ok (eS1 ++ ["sale_price_effective_date start or end not valid ISO date"], []))
      | _ =>
        Except.ok
          (eS1 ++ ["sale_price_effective_date must be a start/end ISO date range 'YYYY-MM-DD / YYYY-MM-DD'"],
           [])
  else Except.ok ([], [])

/-- The shipping block of app.py's `validate_product`. -/
def shipCheck (shipping : PyValue) : Except PyErr (List String) :=
  if truthy shipping then
    let entries : List PyValue :=
      match shipping with
      | .list xs => xs
      | v => ((((splitOnChar ',' (pyStr v)).map pyStrip).filter (· ≠ "")).map PyValue.str)
    appShippingWarns entries
  else Except.ok []

/-- Body of app.py's `validate_product` over the record's lookup function;
returns `(errors, warnings, infos)`. -/
def validateProductCore (now : PyDateTime) (g : String → PyValue) :
    Except PyErr (List String × List String × List String) := do
  -- BASIC FIELDS
  let prod_id := g "id"
  let eId := if inNoneOrEmpty prod_id then ["Missing required field: id"] else []
  let wId :=
    if inNoneOrEmpty prod_id then []
    else if (pyStr prod_id).length > 100 then
      ["id exceeds recommended max length 100 characters"]
    else []
  let title := g "title"
  let eTitle := if inNoneOrEmpty title then ["Missing required field: title"] else []
  let wTitle :=
    if inNoneOrEmpty title then []
    else if (pyStr title).length > 150 then
      ["title exceeds recommended max length 150 characters"]
    else []
  let desc := g "description"
  let eDesc :=
    if inNoneOrEmpty desc then ["Missing required field: description"]
    else if (pyStr desc).length > 5000 then ["description exceeds max length 5000 characters"]
    else []
  let link := g "link"
  let eLink :=
    if inNoneOrEmpty link then ["Missing required field: link"]
    else if ¬ is_url link then ["link must be a valid http(s) URL"]
    else []
  let wLink :=
    if inNoneOrEmpty link then []
    else if ¬ is_url link then []
    else if ¬ strStartsWith (strLower (pyStr link)) "https" then
      ["link should use HTTPS (preferred)"]
    else []
  let image_link := g "image_link"
  let eImg :=
    if inNoneOrEmpty image_link then ["Missing required field: image_link"]
    else if ¬ is_url image_link then ["image_link must be a valid http(s) URL"]
    else []
  let wImg :=
    if inNoneOrEmpty image_link then []
    else if ¬ is_url image_link then []
    else if ¬ strStartsWith (strLower (pyStr image_link)) "https" then
      ["image_link should use HTTPS (preferred)"]
    else []
  let price_raw := g "price"
  let price_val := (extract_price_and_currency price_raw).1
  let price_cur := (extract_price_and_currency price_raw).2
  let ePrice :=
    match price_val with
    | Option.none =>
      ["Missing or invalid required field: price (expected 'number CUR', e.g., '79.99 USD')"]
    | some v =>
      (if Dec.isNeg v then ["price must be a non-negative number"] else []) ++
      (if ¬ truthy price_cur then
         ["price must include an ISO 4217 currency code (e.g., USD) per spec"]
       else [])
  let availability := g "availability"
  let eAvail :=
    if inNoneOrEmpty availability then ["Missing required field: availability"]
    else if ¬ (pyStr availability = "in_stock" || pyStr availability = "out_of_stock" ||
               pyStr availability = "preorder") then
      ["availability must be one of 'in_stock', 'out_of_stock', 'preorder'"]
    else []
  let inv := g "inventory_quantity"
  let eInv :=
    if inNoneOrEmpty inv then ["Missing required field: inventory_quantity"]
    else if ¬ is_positive_integer_str inv then ["inventory_quantity must be a non-negative integer"]
    else []
  -- CONDITIONAL REQUIRED RULES
  let gtin := g "gtin"
  let mpn := g "mpn"
  let eCodes :=
    if inNoneOrEmpty gtin && inNoneOrEmpty mpn then
      ["Either 'gtin' (recommended) or 'mpn' (required if gtin missing) must be provided"]
    else []
  let ePre ← preorderCheck now availability (g "availability_date")
  let has_variant_fields :=
    ¬ inNoneOrEmpty (g "color") || ¬ inNoneOrEmpty (g "size") ||
    ¬ inNoneOrEmpty (g "item_group_title") || ¬ inNoneOrEmpty (g "offer_id")
  let eVar :=
    if has_variant_fields then
      if ¬ truthy (g "item_group_id") then
        ["item_group_id is required when variant rows are present (e.g., color/size/offer_id)"]
      else []
    else []
  let saleRes ← saleCheck price_val (g "sale_price") (g "sale_price_effective_date")
  let eSale := saleRes.1
  let wSale := saleRes.2
  -- RECOMMENDED FIELDS
  let wGtin :=
    if ¬ truthy gtin then ["gtin is recommended (8-14 digits). If absent, mpn must be provided."]
    else if ¬ gtinRegexMatch (pyStr gtin) then ["gtin should be 8-14 digits with no spaces/dashes"]
    else []
  let brand := g "brand"
  let wBrand := if ¬ truthy brand then ["brand is recommended for most products (max 70 chars)"] else []
  let product_category := pyOr (pyOr (g "product_category") (g "category")) (g "google_product_category")
  let wCat :=
    if ¬ truthy product_category then
      ["product_category (category) is recommended — helps classification and relevance"]
    else []
  let condition := g "condition"
  let wCond :=
    if truthy condition &&
        ¬ (isStrEq condition "new" || isStrEq condition "refurbished" || isStrEq condition "used") then
      ["condition should be one of 'new', 'refurbished', 'used' (lower-case)"]
    else []
  let weight := pyOr (g "weight") (g "shipping_weight")
  let wWeight :=
    if ¬ truthy weight then ["weight (or shipping_weight) is recommended (positive number + unit)."]
    else
      match pySplitWs (pyStr weight) with
      | [] => ["weight provided but could not parse numeric part"]
      | t :: _ =>
        match parseFloatStr t with
        | some _ => []
        | Option.none => ["weight provided but could not parse numeric part"]
  let additional_img := g "additional_image_link"
  let wAdd :=
    if truthy additional_img then
      match additional_img with
      | .str s =>
        if s.toList.contains ',' then
          let arr := ((splitOnChar ',' s).map pyStrip).filter (· ≠ "")
          if arr.any (fun u => ¬ is_url (.str u)) then
            ["additional_image_link contains non-URL entries"]
          else []
        else if ¬ is_url (.str (pyStr additional_img)) then
          ["additional_image_link is present but not a valid URL or list"]
        else []
      | .list xs =>
        if xs.any (fun u => ¬ is_url u) then ["additional_image_link contains non-URL entries"]
        else []
      | v =>
        if ¬ is_url (.str (pyStr v)) then
          ["additional_image_link is present but not a valid URL or list"]
        else []
    else []
  let video_link := g "video_link"
  let wVideo :=
    if truthy video_link then
      match video_link with
      | .str s =>
        if s.toList.contains ',' then
          let arr := (splitOnChar ',' s).map pyStrip
          if arr.any (fun v => ¬ is_url (.str v)) then ["video_link contains invalid URL"] else []
        else if ¬ is_url (.str (pyStr video_link)) then ["video_link is not a valid URL"]
        else []
      | .list xs =>
        if xs.any (fun v => ¬ is_url v) then ["video_link contains invalid URL"] else []
      | v =>
        if ¬ is_url (.str (pyStr v)) then ["video_link is not a valid URL"] else []
    else []
  let model_3d := g "model_3d_link"
  let wModel :=
    if truthy model_3d && ¬ is_url model_3d then ["model_3d_link provided but not a valid URL"]
    else []
  let wShip ← shipCheck (g "shipping")
  let wSeller := if ¬ truthy (g "seller_name") then ["seller_name recommended (merchant display name)"] else []
  let wTime :=
    if ¬ truthy (g "updated_at") && ¬ truthy (g "created_at") then
      ["updated_at or created_at recommended for feed freshness tracking"]
    else []
  let infos :=
    if truthy (g "schema_org_json_ld") then
      ["schema_org_json_ld present — good for structured data"]
    else []
  pure (eId ++ eTitle ++ eDesc ++ eLink ++ eImg ++ ePrice ++ eAvail ++ eInv ++ eCodes ++
          ePre ++ eVar ++ eSale,
        wId ++ wTitle ++ wLink ++ wImg ++ wSale ++ wGtin ++ wBrand ++ wCat ++ wCond ++
          wWeight ++ wAdd ++ wVideo ++ wModel ++ wShip ++ wSeller ++ wTime,
        infos)

/-- `validate_product` of app.py (the injected clock stands for the
`datetime.now(timezone.utc)` calls in its body). -/
def validate_product (now : PyDateTime) (p : Record) :
    Except PyErr (List String × List String × List String) :=
  validateProductCore now (fun k => safe_get p k)

/-! JSON feed discovery: `extract_products_from_json` of app.py and of
utils/parse.py.  The `id()`-based `seen` set of the source is an identity
cycle guard; `json.loads` only produces trees, on which it never skips a
container, so it is not modelled. -/

/-- Python `isinstance(v, dict)`. -/
def isDict : PyValue → Bool
  | .dict _ => true
  | _ => false

/-- The BFS success test of both sources: `cur and all(isinstance(i, dict)
for i in cur)` — non-empty and all elements dicts. -/
def goodList (xs : List PyValue) : Bool := ¬ xs.isEmpty && xs.all isDict

/-- The values of a dict, in iteration order. -/
def dictValues (kvs : List (String × PyValue)) : List PyValue := kvs.map (·.2)

mutual
/-- Size of a value (for termination of the BFS queue loop). -/
def psize : PyValue → ℕ
  | .list xs => 1 + psizeList xs
  | .dict kvs => 1 + psizeKVs kvs
  | _ => 1

/-- Total size of a list of values. -/
def psizeList : List PyValue → ℕ
  | [] => 0
  | v :: t => psize v + psizeList t

/-- Total size of the values of a dict. -/
def psizeKVs : List (String × PyValue) → ℕ
  | [] => 0
  | (_, v) :: t => psize v + psizeKVs t
end

/-- Total size of a queue of values. -/
def qsize (q : List PyValue) : ℕ := (q.map psize).sum

theorem qsize_append (a b : List PyValue) : qsize (a ++ b) = qsize a + qsize b := by
  simp [qsize]

theorem psizeList_eq (xs : List PyValue) : psizeList xs = qsize xs := by
  induction xs with
  | nil => simp [psizeList, qsize]
  | cons v t ih => simp [psizeList, qsize] at ih ⊢; omega

theorem psizeKVs_eq (kvs : List (String × PyValue)) : psizeKVs kvs = qsize (dictValues kvs) := by
  induction kvs with
  | nil => simp [psizeKVs, qsize, dictValues]
  | cons kv t ih =>
    obtain ⟨k, v⟩ := kv
    simp [psizeKVs, qsize, dictValues] at ih ⊢
    omega

theorem psize_pos (v : PyValue) : 1 ≤ psize v := by
  cases v <;> simp [psize]

/-- The `while queue:` loop of both sources: pop from the front; a
non-empty all-dict list is returned; other lists and dict values are
appended to the back of the queue. -/
def bfs_loop : List PyValue → Option (List PyValue)
  | [] => Option.none
  | cur :: rest =>
    match cur with
    | .list xs => if goodList xs then some xs else bfs_loop (rest ++ xs)
    | .dict kvs => bfs_loop (rest ++ dictValues kvs)
    | _ => bfs_loop rest
termination_by q => qsize q
decreasing_by
  · have h := psizeList_eq xs
    simp [qsize_append, qsize, psize] at h ⊢
    omega
  · have h := psizeKVs_eq kvs
    simp [qsize_append, qsize, psize, dictValues] at h ⊢
    omega
  · simp only [qsize, List.map_cons, List.sum_cons]
    exact Nat.lt_add_of_pos_left (Nat.lt_of_lt_of_le Nat.zero_lt_one (psize_pos _))

/-- The breadth-first visit order of the queue loop (it keeps going past a
successful list; only the prefix up to the first hit matters). -/
def bfsTraversal : List PyValue → List PyValue
  | [] => []
  | cur :: rest =>
    cur ::
      (match cur with
       | .list xs => bfsTraversal (rest ++ xs)
       | .dict kvs => bfsTraversal (rest ++ dictValues kvs)
       | _ => bfsTraversal rest)
termination_by q => qsize q
decreasing_by
  · have h := psizeList_eq xs
    simp [qsize_append, qsize, psize] at h ⊢
    omega
  · have h := psizeKVs_eq kvs
    simp [qsize_append, qsize, psize, dictValues] at h ⊢
    omega
  · simp only [qsize, List.map_cons, List.sum_cons]
    exact Nat.lt_add_of_pos_left (Nat.lt_of_lt_of_le Nat.zero_lt_one (psize_pos _))

/-- Whether a value is a non-empty list of dicts. -/
def isGoodListVal : PyValue → Bool
  | .list xs => goodList xs
  | _ => false

/-- Whether a value is a list all of whose elements are dicts (the empty
list qualifies). -/
def isAllDictList : PyValue → Bool
  | .list xs => xs.all isDict
  | _ => false

/-- The elements of a list value. -/
def unlistVal : PyValue → List PyValue
  | .list xs => xs
  | _ => []

/-- The queue loop returns exactly the first non-empty all-dict list in
breadth-first visit order. -/
theorem bfs_loop_eq_find (q : List PyValue) :
    bfs_loop q = ((bfsTraversal q).find? isGoodListVal).map unlistVal := by
  induction q using bfs_loop.induct with
  | case1 => simp [bfs_loop, bfsTraversal]
  | case2 rest xs hgood =>
    simp [bfs_loop, bfsTraversal, hgood, List.find?, isGoodListVal, unlistVal]
  | case3 rest xs hgood ih =>
    simp [bfs_loop, bfsTraversal, hgood, List.find?, isGoodListVal, ih]
  | case4 rest kvs ih =>
    simp [bfs_loop, bfsTraversal, List.find?, isGoodListVal, ih]
  | case5 cur rest hlist hdict ih =>
    cases cur <;> simp_all [bfs_loop, bfsTraversal, List.find?, isGoodListVal]

/-- The reserved container keys, in the order both sources try them. -/
def containerKeys : List String := ["products", "items", "feed", "entries", "data"]

/-- Container-key phase of app.py: the first reserved key bound to a list
whose elements are all dicts. -/
def findContainerApp (kvs : List (String × PyValue)) : List String → Option (List PyValue)
  | [] => Option.none
  | key :: rest =>
    match dictLookup kvs key with
    | some (.list ys) => if ys.all isDict then some ys else findContainerApp kvs rest
    | _ => findContainerApp kvs rest

/-- Container-key phase of utils/parse.py: the first reserved key bound to
any list (its elements are not checked). -/
def findContainerUtils (kvs : List (String × PyValue)) : List String → Option (List PyValue)
  | [] => Option.none
  | key :: rest =>
    match dictLookup kvs key with
    | some (.list ys) => some ys
    | _ => findContainerUtils kvs rest

/-- Final phases shared by both sources: BFS from the root, else the root
itself as a single record when it is a dict, else no records. -/
def extractViaBfs (obj : PyValue) : List PyValue :=
  match bfs_loop [obj] with
  | some xs => xs
  | Option.none =>
    match obj with
    | .dict _ => [obj]
    | _ => []

/-- `extract_products_from_json` of app.py. -/
def extract_products_from_json_app (obj : PyValue) : List PyValue :=
  match obj with
  | .list xs => if xs.all isDict then xs else extractViaBfs obj
  | .dict kvs =>
    (match findContainerApp kvs containerKeys with
     | some ys => ys
     | Option.none => extractViaBfs obj)
  | _ => extractViaBfs obj

/-- `extract_products_from_json` of utils/parse.py. -/
def extract_products_from_json_utils (obj : PyValue) : List PyValue :=
  match obj with
  | .list xs => if xs.all isDict then xs else extractViaBfs obj
  | .dict kvs =>
    (match findContainerUtils kvs containerKeys with
     | some ys => ys
     | Option.none => extractViaBfs obj)
  | _ => extractViaBfs obj

/-- The first non-empty breadth-first list of dicts under the root. -/
def bfsFirstGood (obj : PyValue) : Option (List PyValue) :=
  ((bfsTraversal [obj]).find? isGoodListVal).map unlistVal

/-- Modelled from the claim's wording (C2), which omits the non-emptiness
requirement of the BFS phase: the first list in breadth-first order all of
whose elements are mappings — the empty list qualifies. -/
def bfsFirstAllDict (obj : PyValue) : Option (List PyValue) :=
  ((bfsTraversal [obj]).find? isAllDictList).map unlistVal

/-- Tail phases of the claim's description (C2): BFS admitting the empty
list, then the dict root as single record, then no records. -/
def extractClaimTail (obj : PyValue) : List PyValue :=
  match bfsFirstAllDict obj with
  | some xs => xs
  | Option.none =>
    match obj with
    | .dict _ => [obj]
    | _ => []

/-- Modelled from the claim's wording (C2): its described result, with the
container-key phase as app.py has it and the BFS phase admitting the empty
list. -/
def extractClaimDescribed (obj : PyValue) : List PyValue :=
  match obj with
  | .list xs => if xs.all isDict then xs else extractClaimTail obj
  | .dict kvs =>
    (match findContainerApp kvs containerKeys with
     | some ys => ys
     | Option.none => extractClaimTail obj)
  | _ => extractClaimTail obj

/-! Explicit-state forms for the frame property (C9).  No statement in any
rule module or in `validate_product` assigns into the record `p` — every
access is a `p.get` / `safe_get` read — so the state-passing translation of
each module returns the record with its output. -/

/-- State-passing validate_flags. -/
def validate_flags_state (p : Record) : (List String × List String × List Row) × Record :=
  (validate_flags p, p)

/-- State-passing validate_basic. -/
def validate_basic_state (p : Record) : (List String × List String × List Row) × Record :=
  (validate_basic p, p)

/-- State-passing validate_item_info. -/
def validate_item_info_state (p : Record) : (List String × List String × List Row) × Record :=
  (validate_item_info p, p)

/-- State-passing validate_media. -/
def validate_media_state (p : Record) : (List String × List String × List Row) × Record :=
  (validate_media p, p)

/-- State-passing validate_pricing. -/
def validate_pricing_state (p : Record) : (List String × List String × List Row) × Record :=
  (validate_pricing p, p)

/-- State-passing validate_availability. -/
def validate_availability_state (p : Record) : (List String × List String × List Row) × Record :=
  (validate_availability p, p)

/-- State-passing validate_variants. -/
def validate_variants_state (p : Record) : (List String × List String × List Row) × Record :=
  (validate_variants p, p)

/-- State-passing validate_fulfillment. -/
def validate_fulfillment_state (p : Record) :
    Except PyErr ((List String × List String × List Row) × Record) :=
  (validate_fulfillment p).map (fun o => (o, p))

/-- State-passing validate_merchant. -/
def validate_merchant_state (p : Record) : (List String × List String × List Row) × Record :=
  (validate_merchant p, p)

/-- State-passing validate_returns. -/
def validate_returns_state (p : Record) : (List String × List String × List Row) × Record :=
  (validate_returns p, p)

/-- State-passing validate_performance. -/
def validate_performance_state (p : Record) : (List String × List String × List Row) × Record :=
  (validate_performance p, p)

/-- State-passing validate_compliance. -/
def validate_compliance_state (p : Record) : (List String × List String × List Row) × Record :=
  (validate_compliance p, p)

/-- State-passing validate_reviews. -/
def validate_reviews_state (p : Record) : (List String × List String × List Row) × Record :=
  (validate_reviews p, p)

/-- State-passing validate_related. -/
def validate_related_state (p : Record) : (List String × List String × List Row) × Record :=
  (validate_related p, p)

/-- State-passing validate_geo. -/
def validate_geo_state (p : Record) : (List String × List String × List Row) × Record :=
  (validate_geo p, p)

/-- State-passing `run_all_validations`: the record is threaded through the
fifteen module calls in execution order and returned beside the result. -/
def run_all_validations_state (p0 : Record) : Except PyErr (RunAllResult × Record) := do
  let s1 := validate_flags_state p0
  let s2 := validate_basic_state s1.2
  let s3 := validate_item_info_state s2.2
  let s4 := validate_media_state s3.2
  let s5 := validate_pricing_state s4.2
  let s6 := validate_availability_state s5.2
  let s7 := validate_variants_state s6.2
  let s8 ← validate_fulfillment_state s7.2
  let s9 := validate_merchant_state s8.2
  let s10 := validate_returns_state s9.2
  let s11 := validate_performance_state s10.2
  let s12 := validate_compliance_state s11.2
  let s13 := validate_reviews_state s12.2
  let s14 := validate_related_state s13.2
  let s15 := validate_geo_state s14.2
  pure (⟨s1.1.1 ++ s2.1.1 ++ s3.1.1 ++ s4.1.1 ++ s5.1.1 ++ s6.1.1 ++ s7.1.1 ++ s8.1.1 ++
           s9.1.1 ++ s10.1.1 ++ s11.1.1 ++ s12.1.1 ++ s13.1.1 ++ s14.1.1 ++ s15.1.1,
         s1.1.2.1 ++ s2.1.2.1 ++ s3.1.2.1 ++ s4.1.2.1 ++ s5.1.2.1 ++ s6.1.2.1 ++ s7.1.2.1 ++
           s8.1.2.1 ++ s9.1.2.1 ++ s10.1.2.1 ++ s11.1.2.1 ++ s12.1.2.1 ++ s13.1.2.1 ++
           s14.1.2.1 ++ s15.1.2.1,
         [],
         s1.1.2.2 ++ s2.1.2.2 ++ s3.1.2.2 ++ s4.1.2.2 ++ s5.1.2.2 ++ s6.1.2.2 ++ s7.1.2.2 ++
           s8.1.2.2 ++ s9.1.2.2 ++ s10.1.2.2 ++ s11.1.2.2 ++ s12.1.2.2 ++ s13.1.2.2 ++
           s14.1.2.2 ++ s15.1.2.2⟩,
        s15.2)

/-- State-passing `validate_product`: its body never assigns into `p` (all
reads go through `safe_get`), so the translation returns `p` unchanged. -/
def validate_product_state (now : PyDateTime) (p : Record) :
    Except PyErr ((List String × List String × List String) × Record) :=
  (validate_product now p).map (fun o => (o, p))

/-! Shared helpers for the claim theorems. -/

/-- The injected clock used by the concrete evaluations below
(2026-10-12T00:00:00+00:00, an aware datetime like
`datetime.now(timezone.utc)`). -/
def now0 : PyDateTime := ⟨2026, 10, 12, 0, 0, 0, 0, some 0⟩

/-- The error list of a `validate_product` outcome (empty on a raise). -/
def errorsOfApp : Except PyErr (List String × List String × List String) → List String
  | .ok (e, _, _) => e
  | .error _ => []

/-- The error list of a `run_all_validations` outcome (empty on a raise). -/
def errorsOfRun : Except PyErr RunAllResult → List String
  | .ok r => r.errors
  | .error _ => []

/-- Membership in a conditional singleton-or-empty list. -/
theorem mem_ite_nil {c : Prop} [Decidable c] {x : String} {l : List String} :
    (x ∈ if c then l else []) ↔ c ∧ x ∈ l := by
  split <;> simp_all

/-- Membership in a two-branch conditional list. -/
theorem mem_ite_full {c : Prop} [Decidable c] {x : String} {l1 l2 : List String} :
    (x ∈ if c then l1 else l2) ↔ (c ∧ x ∈ l1) ∨ (¬ c ∧ x ∈ l2) := by
  split <;> simp_all

/-- Eliminate a successful bind in the `Except` monad. -/
theorem bind_ok_elim {α β : Type} {E : Except PyErr α} {k : α → Except PyErr β} {b : β}
    (h : E >>= k = .ok b) : ∃ a, E = .ok a ∧ k a = .ok b := by
  cases E with
  | error e => simp [Bind.bind, Except.bind] at h
  | ok a => exact ⟨a, rfl, by simpa [Bind.bind, Except.bind] using h⟩

/-- Eliminate a successful map in the `Except` monad. -/
theorem map_ok_elim {α β : Type} {E : Except PyErr α} {f : α → β} {b : β}
    (h : E.map f = .ok b) : ∃ a, E = .ok a ∧ f a = b := by
  cases E with
  | error e => simp [Except.map] at h
  | ok a => exact ⟨a, rfl, by simpa [Except.map] using h⟩

/-- C1: the orchestrators are claimed total — "validate_product and
run_all_validations return normally without raising for every string-keyed
mapping, and the empty record yields a missing-id error".  The second half
holds, but both raise `AttributeError` on a record whose `shipping` list
holds a non-string, and `validate_product` raises `TypeError` on a preorder
record with a naive ISO `availability_date` (it is compared against the
aware `datetime.now(timezone.utc)`). -/
theorem C1_totality_code_bug :
    validate_product now0 [("shipping", PyValue.list [PyValue.int 1])] =
      .error .attributeError ∧
    run_all_validations [("shipping", PyValue.list [PyValue.int 1])] =
      .error .attributeError ∧
    validate_product now0 [("availability", PyValue.str "preorder"),
        ("availability_date", PyValue.str "2020-01-01")] = .error .typeError ∧
    "Missing required field: id" ∈ errorsOfApp (validate_product now0 []) ∧
    "Missing required field: id" ∈ errorsOfRun (run_all_validations []) :=
  ⟨rfl, rfl, rfl, by decide, by decide⟩

/-- C4: preorder availability_date law.  On the aware-date path
`validate_product` behaves as claimed (past date → error, future date → no
error, absent date → error), but on a plain `YYYY-MM-DD` date (naive) it
raises `TypeError` instead of emitting the error, and
`validate_availability` never performs the future-date comparison at all —
on a past preorder date it emits no error (only the unrelated
inventory_quantity error appears for this record). -/
theorem C4_preorder_code_bug :
    validate_product now0 [("availability", PyValue.str "preorder"),
        ("availability_date", PyValue.str "2020-01-01")] = .error .typeError ∧
    (validate_availability [("availability", PyValue.str "preorder"),
        ("availability_date", PyValue.str "2020-01-01")]).1 =
      ["inventory_quantity must be a non-negative integer"] ∧
    "availability_date must be a future date for preorder items" ∈
      errorsOfApp (validate_product now0 [("availability", PyValue.str "preorder"),
        ("availability_date", PyValue.str "2020-01-01T00:00:00+00:00")]) ∧
    "availability_date must be a future date for preorder items" ∉
      errorsOfApp (validate_product now0 [("availability", PyValue.str "preorder"),
        ("availability_date", PyValue.str "2100-01-01T00:00:00+00:00")]) ∧
    "availability_date is required when availability='preorder'" ∈
      errorsOfApp (validate_product now0 [("availability", PyValue.str "preorder")]) :=
  ⟨rfl, rfl, by decide, by decide, by decide⟩

/-- C9: rules never mutate records — the state-passing translations of
`run_all_validations` and `validate_product` return the record unchanged
whenever they return. -/
theorem C9_records_read_only (p : Record) (now : PyDateTime) :
    (∀ r rec, run_all_validations_state p = .ok (r, rec) → rec = p) ∧
    (∀ o rec, validate_product_state now p = .ok (o, rec) → rec = p) := by
  constructor
  · intro r rec h
    unfold run_all_validations_state validate_flags_state validate_basic_state
      validate_item_info_state validate_media_state validate_pricing_state
      validate_availability_state validate_variants_state validate_fulfillment_state
      validate_merchant_state validate_returns_state validate_performance_state
      validate_compliance_state validate_reviews_state validate_related_state
      validate_geo_state at h
    dsimp only at h
    cases hf : validate_fulfillment p with
    | error e => rw [hf] at h; simp [Except.map, Bind.bind, Except.bind] at h
    | ok o => rw [hf] at h; simp [Except.map, Bind.bind, Except.bind, pure, Except.pure] at h; exact h.2.symm
  · intro o rec h
    unfold validate_product_state at h
    cases hv : validate_product now p with
    | error e => rw [hv] at h; simp [Except.map] at h
    | ok t => rw [hv] at h; simp [Except.map] at h; exact h.2.symm

/-- Concrete run of the state-passing orchestrator on the empty record. -/
def runAllEmptyStatePair : RunAllResult × Record :=
  (run_all_validations_state []).toOption.getD (⟨[], [], [], []⟩, [("sentinel", PyValue.none)])

/-- Witness for C9 at the empty record. -/
theorem C9_records_read_only_witness : runAllEmptyStatePair.2 = [] :=
  (C9_records_read_only [] now0).1 runAllEmptyStatePair.1 runAllEmptyStatePair.2 rfl

/-- The fixed sequence of Field names of the rows of
`run_all_validations`, module by module in orchestration order. -/
def fieldNames47 : List String :=
  ["enable_search", "enable_checkout",
   "id", "gtin", "mpn", "title", "description", "link",
   "condition", "product_category", "brand", "material", "weight", "age_group",
   "image_link", "additional_image_link", "video_link", "model_3d_link",
   "price", "sale_price", "sale_price_effective_date", "unit_pricing_measure",
   "availability", "inventory_quantity", "expiration_date",
   "item_group_id", "color", "size",
   "shipping", "delivery_estimate",
   "seller_name", "seller_url",
   "return_policy", "return_window",
   "popularity_score", "return_rate",
   "warning", "warning_url", "age_restriction",
   "product_review_count", "product_review_rating", "q_and_a", "raw_review_data",
   "related_product_id", "relationship_type",
   "geo_price", "geo_availability"]

/-- When the fulfillment module returns, its two rows are fixed. -/
theorem validate_fulfillment_rows (p : Record) (e w : List String) (f : List Row)
    (h : validate_fulfillment p = .ok (e, w, f)) :
    f = [⟨"shipping", pget p "shipping"⟩, ⟨"delivery_estimate", pget p "delivery_estimate"⟩] := by
  unfold validate_fulfillment at h
  dsimp only at h
  split at h
  · obtain ⟨w1, hE, hk⟩ := bind_ok_elim h
    simp [pure, Except.pure] at hk
    exact hk.2.2.symm
  · obtain ⟨w1, hE, hk⟩ := bind_ok_elim h
    simp [pure, Except.pure] at hk
    exact hk.2.2.symm

/-- Rows of the flags module. -/
theorem validate_flags_rows (p : Record) :
    (validate_flags p).2.2.map Row.Field = ["enable_search", "enable_checkout"] := rfl

/-- Rows of the basic module. -/
theorem validate_basic_rows (p : Record) :
    (validate_basic p).2.2.map Row.Field =
      ["id", "gtin", "mpn", "title", "description", "link"] := rfl

/-- Rows of the item-info module. -/
theorem validate_item_info_rows (p : Record) :
    (validate_item_info p).2.2.map Row.Field =
      ["condition", "product_category", "brand", "material", "weight", "age_group"] := rfl

/-- Rows of the media module. -/
theorem validate_media_rows (p : Record) :
    (validate_media p).2.2.map Row.Field =
      ["image_link", "additional_image_link", "video_link", "model_3d_link"] := rfl

/-- Rows of the pricing module. -/
theorem validate_pricing_rows (p : Record) :
    (validate_pricing p).2.2.map Row.Field =
      ["price", "sale_price", "sale_price_effective_date", "unit_pricing_measure"] := rfl

/-- Rows of the availability module. -/
theorem validate_availability_rows (p : Record) :
    (validate_availability p).2.2.map Row.Field =
      ["availability", "inventory_quantity", "expiration_date"] := rfl

/-- Rows of the variants module. -/
theorem validate_variants_rows (p : Record) :
    (validate_variants p).2.2.map Row.Field = ["item_group_id", "color", "size"] := rfl

/-- Rows of the merchant module. -/
theorem validate_merchant_rows (p : Record) :
    (validate_merchant p).2.2.map Row.Field = ["seller_name", "seller_url"] := rfl

/-- Rows of the returns module. -/
theorem validate_returns_rows (p : Record) :
    (validate_returns p).2.2.map Row.Field = ["return_policy", "return_window"] := rfl

/-- Rows of the performance module. -/
theorem validate_performance_rows (p : Record) :
    (validate_performance p).2.2.map Row.Field = ["popularity_score", "return_rate"] := rfl

/-- Rows of the compliance module. -/
theorem validate_compliance_rows (p : Record) :
    (validate_compliance p).2.2.map Row.Field =
      ["warning", "warning_url", "age_restriction"] := rfl

/-- Rows of the reviews module. -/
theorem validate_reviews_rows (p : Record) :
    (validate_reviews p).2.2.map Row.Field =
      ["product_review_count", "product_review_rating", "q_and_a", "raw_review_data"] := rfl

/-- Rows of the related module. -/
theorem validate_related_rows (p : Record) :
    (validate_related p).2.2.map Row.Field =
      ["related_product_id", "relationship_type"] := rfl

/-- Rows of the geo module. -/
theorem validate_geo_rows (p : Record) :
    (validate_geo p).2.2.map Row.Field = ["geo_price", "geo_availability"] := rfl

/-- C10 (amended): whenever `run_all_validations` returns (it raises
`AttributeError` exactly when a truthy shipping list holds a non-string
entry), the returned field rows are the same 47 Field names in the same
fixed order, whatever the record contains. -/
theorem C10_fixed_field_rows (p : Record) (r : RunAllResult)
    (h : run_all_validations p = .ok r) :
    r.fields.map Row.Field = fieldNames47 := by
  unfold run_all_validations at h
  dsimp only at h
  obtain ⟨t8, hE, hk⟩ := bind_ok_elim h
  obtain ⟨e8, w8, f8⟩ := t8
  have hf8 := validate_fulfillment_rows p e8 w8 f8 hE
  simp only [pure, Except.pure, Except.ok.injEq] at hk
  subst hk
  subst hf8
  have hmap : (validate_flags p).2.2.map Row.Field ++ (validate_basic p).2.2.map Row.Field ++
      (validate_item_info p).2.2.map Row.Field ++ (validate_media p).2.2.map Row.Field ++
      (validate_pricing p).2.2.map Row.Field ++ (validate_availability p).2.2.map Row.Field ++
      (validate_variants p).2.2.map Row.Field ++ ["shipping", "delivery_estimate"] ++
      (validate_merchant p).2.2.map Row.Field ++ (validate_returns p).2.2.map Row.Field ++
      (validate_performance p).2.2.map Row.Field ++ (validate_compliance p).2.2.map Row.Field ++
      (validate_reviews p).2.2.map Row.Field ++ (validate_related p).2.2.map Row.Field ++
      (validate_geo p).2.2.map Row.Field = fieldNames47 := by
    rw [validate_flags_rows, validate_basic_rows, validate_item_info_rows, validate_media_rows,
      validate_pricing_rows, validate_availability_rows, validate_variants_rows,
      validate_merchant_rows, validate_returns_rows, validate_performance_rows,
      validate_compliance_rows, validate_reviews_rows, validate_related_rows, validate_geo_rows]
    rfl
  simp only [List.map_append]
  simpa using hmap

/-- C10 (counterexample to the claim as stated): on this record
`run_all_validations` raises instead of returning a field-row list. -/
theorem C10_counterexample :
    run_all_validations [("shipping", PyValue.list [PyValue.int 1])] = .error .attributeError :=
  rfl

/-- Concrete result of the orchestrator on the empty record. -/
def runAllEmptyResult : RunAllResult :=
  (run_all_validations []).toOption.getD ⟨[], [], [], []⟩

/-- Witness for C10 at the empty record. -/
theorem C10_fixed_field_rows_witness :
    runAllEmptyResult.fields.map Row.Field = fieldNames47 :=
  C10_fixed_field_rows [] runAllEmptyResult rfl

/-- C3: both price parsers return `(79.99, "USD")` for `"79.99 USD"` and
`(79.99, None)` for `"79.99"` (currency optional at parser level), and for
every record whose price parses to an amount with no (truthy) currency the
pricing rule emits the missing-currency error although the parser
succeeded.  `⟨7999, 2⟩` is the exact decimal 79.99. -/
theorem C3_price_currency (p : Record) (v : Dec)
    (h1 : (parse_price (pget p "price")).1 = some v)
    (h2 : truthy (parse_price (pget p "price")).2 = false) :
    "price must include ISO 4217 currency code per spec" ∈ (validate_pricing p).1 ∧
    parse_price (.str "79.99 USD") = (some ⟨7999, 2⟩, .str "USD") ∧
    parse_price (.str "79.99") = (some ⟨7999, 2⟩, .none) ∧
    extract_price_and_currency (.str "79.99 USD") = (some ⟨7999, 2⟩, .str "USD") ∧
    extract_price_and_currency (.str "79.99") = (some ⟨7999, 2⟩, .none) ∧
    Dec.toRat ⟨7999, 2⟩ = 79.99 := by
  refine ⟨?_, rfl, rfl, rfl, rfl, by norm_num [Dec.toRat]⟩
  unfold validate_pricing
  dsimp only
  simp [h1, h2, List.mem_append]

/-- Witness for C3 on a parseable price with no currency. -/
theorem C3_price_currency_witness :
    "price must include ISO 4217 currency code per spec" ∈
      (validate_pricing [("price", PyValue.str "5")]).1 :=
  (C3_price_currency [("price", PyValue.str "5")] ⟨5, 0⟩ rfl rfl).1

/-- A record whose sale_price is the number 0 (falsy but parseable) while
price parses to a negative amount via the token fallback. -/
def saleZeroRecord : Record := [("price", PyValue.str "-1"), ("sale_price", PyValue.int 0)]

/-- C5 (counterexample to the claim as stated): both price and sale_price
parse to amounts and the sale amount exceeds the price amount, yet
`validate_pricing` emits no ordering error — the sale block is guarded by
truthiness and the number 0 is falsy. -/
theorem C5_sale_ordering_counterexample :
    (parse_price (pget saleZeroRecord "price")).1 = some ⟨-1, 0⟩ ∧
    (parse_price (pget saleZeroRecord "sale_price")).1 = some ⟨0, 0⟩ ∧
    Dec.toRat ⟨-1, 0⟩ < Dec.toRat ⟨0, 0⟩ ∧
    "sale_price must be <= price" ∉ (validate_pricing saleZeroRecord).1 :=
  ⟨rfl, rfl, by norm_num [Dec.toRat], by decide⟩

/-- C5 (amended): when both parse and the sale_price value is additionally
truthy, `validate_pricing` emits the ordering error exactly when the sale
amount strictly exceeds the price amount (no tolerance); when the
sale_price value is falsy the block is skipped and no ordering error is
emitted. -/
theorem C5_sale_ordering_amended (p : Record) (pv sv : Dec)
    (hp : (parse_price (pget p "price")).1 = some pv)
    (hs : (parse_price (pget p "sale_price")).1 = some sv) :
    (truthy (pget p "sale_price") = true →
      ("sale_price must be <= price" ∈ (validate_pricing p).1 ↔ pv.toRat < sv.toRat)) ∧
    (truthy (pget p "sale_price") = false →
      "sale_price must be <= price" ∉ (validate_pricing p).1) := by
  constructor
  · intro ht
    unfold validate_pricing
    dsimp only
    simp only [hp, hs, ht]
    generalize regexSplitSlash (pyStr (pget p "sale_price_effective_date")) = L
    rcases L with - | ⟨a, - | ⟨b, - | ⟨c, t⟩⟩⟩ <;>
      simp [mem_ite_nil, List.mem_append, Dec.lt_iff_toRat]
  · intro ht
    unfold validate_pricing
    dsimp only
    simp [hp, ht, mem_ite_nil, List.mem_append]

/-- Witness for C5 on the spec's own example (`100 USD` / `150 USD`). -/
theorem C5_sale_ordering_witness :
    "sale_price must be <= price" ∈
      (validate_pricing [("price", PyValue.str "100 USD"),
        ("sale_price", PyValue.str "150 USD")]).1 :=
  ((C5_sale_ordering_amended [("price", PyValue.str "100 USD"),
      ("sale_price", PyValue.str "150 USD")] ⟨100, 0⟩ ⟨150, 0⟩ rfl rfl).1 rfl).mpr
    (by norm_num [Dec.toRat])

/-- A record whose sale_price_effective_date has both sub-dates valid but
start after end. -/
def reversedRangeRecord : Record :=
  [("sale_price", PyValue.str "50 USD"),
   ("sale_price_effective_date", PyValue.str "2024-01-02 / 2024-01-01")]

/-- C8 (counterexample to the claim as stated): both fields present, the
value splits into exactly two valid ISO dates with start after end — the
claim requires an error — yet `validate_pricing` emits only the unrelated
missing-price error: it never compares the two dates. -/
theorem C8_effective_date_counterexample :
    regexSplitSlash (pyStr (pget reversedRangeRecord "sale_price_effective_date")) =
      ["2024-01-02", "2024-01-01"] ∧
    is_iso8601_date "2024-01-02" = true ∧
    is_iso8601_date "2024-01-01" = true ∧
    parse_iso_date "2024-01-02" = some ⟨2024, 1, 2, 0, 0, 0, 0, Option.none⟩ ∧
    parse_iso_date "2024-01-01" = some ⟨2024, 1, 1, 0, 0, 0, 0, Option.none⟩ ∧
    dtGe ⟨2024, 1, 2, 0, 0, 0, 0, Option.none⟩ ⟨2024, 1, 1, 0, 0, 0, 0, Option.none⟩ =
      .ok true ∧
    (validate_pricing reversedRangeRecord).1 = ["Missing or invalid required field: price"] :=
  ⟨rfl, rfl, rfl, rfl, rfl, rfl, rfl⟩

/-- C8 (amended): with both fields present and truthy, `validate_pricing`
emits a sale_price_effective_date error exactly when the value does not
split on `/` (with adjacent whitespace) into exactly two parts that both
parse as ISO dates; the start-before-end ordering is not checked by this
module (only app.py's `validate_product` compares the two dates). -/
theorem C8_effective_date_amended (p : Record)
    (h1 : truthy (pget p "sale_price") = true)
    (h2 : truthy (pget p "sale_price_effective_date") = true) :
    (("sale_price_effective_date must be range start/end" ∈ (validate_pricing p).1 ∨
      "sale_price_effective_date dates must be ISO 8601" ∈ (validate_pricing p).1) ↔
      ¬ (match regexSplitSlash (pyStr (pget p "sale_price_effective_date")) with
         | [a, b] => is_iso8601_date a = true ∧ is_iso8601_date b = true
         | _ => False)) := by
  unfold validate_pricing
  dsimp only
  simp only [h1, h2]
  rcases hpv : (parse_price (pget p "price")).1 with - | pv <;>
    rcases hsv : (parse_price (pget p "sale_price")).1 with - | sv <;>
    · generalize regexSplitSlash (pyStr (pget p "sale_price_effective_date")) = L
      rcases L with - | ⟨a, - | ⟨b, - | ⟨c, t⟩⟩⟩ <;>
        simp [mem_ite_nil, List.mem_append, not_and_or] <;>
        cases is_iso8601_date a <;> cases is_iso8601_date b <;> simp

/-- Witness for C8 on a value with a single part. -/
theorem C8_effective_date_witness :
    "sale_price_effective_date must be range start/end" ∈
      (validate_pricing [("sale_price", PyValue.str "1 USD"),
        ("sale_price_effective_date", PyValue.str "bad")]).1 ∨
    "sale_price_effective_date dates must be ISO 8601" ∈
      (validate_pricing [("sale_price", PyValue.str "1 USD"),
        ("sale_price_effective_date", PyValue.str "bad")]).1 :=
  (C8_effective_date_amended [("sale_price", PyValue.str "1 USD"),
      ("sale_price_effective_date", PyValue.str "bad")] rfl rfl).mpr (fun h => h)

/-- `safe_get` depends only on the lower-cased keys of the record. -/
theorem safe_get_eq_pget_lower (r : Record) (k : String) :
    safe_get r k = pget (r.map (fun kv => (strLower kv.1, kv.2))) (strLower k) := by
  induction r with
  | nil => rfl
  | cons kv t ih =>
    obtain ⟨k1, v⟩ := kv
    simp only [List.map_cons, safe_get, pget]
    split <;> simp [ih]

/-- C7 (amended): in app.py every field read goes through `safe_get`, which
is case-insensitive and returns the value of the first key in iteration
order whose lower-cased name matches, so two records equal up to key casing
get identical diagnostics from `validate_product`; the validators package,
however, reads fields with plain `p.get`, which is case-sensitive (see the
counterexample). -/
theorem C7_case_insensitive_amended (r1 r2 : Record) (now : PyDateTime)
    (h : r1.map (fun kv => (strLower kv.1, kv.2)) = r2.map (fun kv => (strLower kv.1, kv.2))) :
    validate_product now r1 = validate_product now r2 ∧
    (∀ (r : Record) (k : String),
      safe_get r k =
        ((r.find? (fun kv => strLower kv.1 == strLower k)).map (fun kv => kv.2)).getD .none) := by
  constructor
  · unfold validate_product
    exact congrArg _ (funext fun k => by
      rw [safe_get_eq_pget_lower, safe_get_eq_pget_lower, h])
  · intro r k
    induction r with
    | nil => rfl
    | cons kv t ih =>
      obtain ⟨k1, v⟩ := kv
      by_cases hk : strLower k1 = strLower k
      · simp [safe_get, List.find?, hk]
      · have hb : (strLower k1 == strLower k) = false := beq_eq_false_iff_ne.mpr hk
        simp [safe_get, List.find?, hb, hk, ih]

/-- A one-field record keyed `ID`. -/
def upperIdRecord : Record := [("ID", PyValue.str "x")]

/-- The same record keyed `id`. -/
def lowerIdRecord : Record := [("id", PyValue.str "x")]

/-- C7 (counterexample to the claim as stated): the validators package
reads fields case-sensitively, so two records differing only in key casing
get different diagnostics from `validate_basic` / `run_all_validations`. -/
theorem C7_case_insensitive_counterexample :
    upperIdRecord.map (fun kv => (strLower kv.1, kv.2)) =
      lowerIdRecord.map (fun kv => (strLower kv.1, kv.2)) ∧
    "Missing required field: id" ∈ (validate_basic upperIdRecord).1 ∧
    "Missing required field: id" ∉ (validate_basic lowerIdRecord).1 ∧
    errorsOfRun (run_all_validations upperIdRecord) ≠
      errorsOfRun (run_all_validations lowerIdRecord) :=
  ⟨rfl, by decide, by decide, by decide⟩

/-- Witness for C7 on the recased one-field records. -/
theorem C7_case_insensitive_witness :
    validate_product now0 upperIdRecord = validate_product now0 lowerIdRecord :=
  (C7_case_insensitive_amended upperIdRecord lowerIdRecord now0 rfl).1

/-- Every error the preorder block can return is one of its three
availability_date messages. -/
theorem preorderCheck_errs (now : PyDateTime) (a ad : PyValue) (e : List String)
    (h : preorderCheck now a ad = .ok e) (x : String) (hx : x ∈ e) :
    x = "availability_date is required when availability='preorder'" ∨
    x = "availability_date must be a valid ISO 8601 date" ∨
    x = "availability_date must be a future date for preorder items" := by
  unfold preorderCheck at h
  split at h
  · split at h
    · cases h; simp_all
    · split at h
      · cases h; simp_all
      · split at h
        · obtain ⟨le, hle, he⟩ := map_ok_elim h
          subst he
          cases le <;> simp_all
        · cases h; simp_all
  · cases h; simp_all

/-- Every error the first half of the sale block can produce is one of its
two sale_price messages. -/
theorem saleES1_mem (pv : Option Dec) (sp : PyValue) (x : String)
    (hx : x ∈ (match (extract_price_and_currency sp).1 with
               | Option.none => ["sale_price provided but not parseable as number + optional currency"]
               | some sv =>
                 match pv with
                 | some pvv =>
                   if Dec.lt pvv sv then ["sale_price must be less than or equal to price"] else []
                 | Option.none => [])) :
    x = "sale_price provided but not parseable as number + optional currency" ∨
    x = "sale_price must be less than or equal to price" := by
  split at hx
  · simp_all
  · split at hx
    · rw [mem_ite_nil] at hx
      simp_all
    · simp_all

/-- Every error the sale block can return is one of its five messages. -/
theorem saleCheck_errs (pv : Option Dec) (sp se : PyValue) (es ws : List String)
    (h : saleCheck pv sp se = .ok (es, ws)) (x : String) (hx : x ∈ es) :
    x = "sale_price provided but not parseable as number + optional currency" ∨
    x = "sale_price must be less than or equal to price" ∨
    x = "sale_price_effective_date must be a start/end ISO date range 'YYYY-MM-DD / YYYY-MM-DD'" ∨
    x = "sale_price_effective_date start or end not valid ISO date" ∨
    x = "sale_price_effective_date start must be before end" := by
  unfold saleCheck at h
  dsimp only at h
  split at h
  · split at h
    · simp only [Except.ok.injEq, Prod.mk.injEq] at h
      obtain ⟨h1, -⟩ := h
      subst h1
      rcases saleES1_mem pv sp x hx with hc | hc
      · exact Or.inl hc
      · exact Or.inr (Or.inl hc)
    · split at h
      · split at h
        · obtain ⟨ge, hge, he⟩ := map_ok_elim h
          simp only [Prod.mk.injEq] at he
          obtain ⟨h1, -⟩ := he
          subst h1
          rcases List.mem_append.mp hx with hm | hm
          · rcases saleES1_mem pv sp x hm with hc | hc
            · exact Or.inl hc
            · exact Or.inr (Or.inl hc)
          · rw [mem_ite_nil] at hm
            simp_all
        · simp only [Except.ok.injEq, Prod.mk.injEq] at h
          obtain ⟨h1, -⟩ := h
          subst h1
          rcases List.mem_append.mp hx with hm | hm
          · rcases saleES1_mem pv sp x hm with hc | hc
            · exact Or.inl hc
            · exact Or.inr (Or.inl hc)
          · simp_all
      · simp only [Except.ok.injEq, Prod.mk.injEq] at h
        obtain ⟨h1, -⟩ := h
        subst h1
        rcases List.mem_append.mp hx with hm | hm
        · rcases saleES1_mem pv sp x hm with hc | hc
          · exact Or.inl hc
          · exact Or.inr (Or.inl hc)
        · simp_all
  · simp only [Except.ok.injEq, Prod.mk.injEq] at h
    obtain ⟨h1, -⟩ := h
    subst h1
    simp at hx

/-- A record with only the fourth variant trigger field of app.py. -/
def itemGroupTitleRecord : Record := [("item_group_title", PyValue.str "g")]

/-- C6 (counterexample to the claim as stated): none of color, size,
offer_id is present, yet `validate_product` emits the item_group_id error —
its trigger set also contains `item_group_title`. -/
theorem C6_variants_counterexample :
    safe_get itemGroupTitleRecord "color" = .none ∧
    safe_get itemGroupTitleRecord "size" = .none ∧
    safe_get itemGroupTitleRecord "offer_id" = .none ∧
    "item_group_id is required when variant rows are present (e.g., color/size/offer_id)" ∈
      errorsOfApp (validate_product now0 itemGroupTitleRecord) :=
  ⟨rfl, rfl, rfl, by decide⟩

/-- C6 (amended): in `validate_variants` the trigger fields are color,
size, offer_id with presence meaning truthiness, and absence of a truthy
item_group_id under a trigger is an error, none emitted otherwise; in
`validate_product` the trigger set additionally contains item_group_title
and presence means not `None` and not the empty string. -/
theorem C6_variants_amended (p : Record) :
    ((truthy (pget p "color") || truthy (pget p "size") || truthy (pget p "offer_id")) = true →
      truthy (pget p "item_group_id") = false →
      "item_group_id required when variants exist" ∈ (validate_variants p).1) ∧
    ((truthy (pget p "color") || truthy (pget p "size") || truthy (pget p "offer_id")) = false →
      "item_group_id required when variants exist" ∉ (validate_variants p).1) ∧
    (∀ now es ws inf, validate_product now p = .ok (es, ws, inf) →
      ((inNoneOrEmpty (safe_get p "color") = false ∨ inNoneOrEmpty (safe_get p "size") = false ∨
        inNoneOrEmpty (safe_get p "item_group_title") = false ∨
        inNoneOrEmpty (safe_get p "offer_id") = false) →
        truthy (safe_get p "item_group_id") = false →
        "item_group_id is required when variant rows are present (e.g., color/size/offer_id)" ∈ es) ∧
      (inNoneOrEmpty (safe_get p "color") = true →
        inNoneOrEmpty (safe_get p "size") = true →
        inNoneOrEmpty (safe_get p "item_group_title") = true →
        inNoneOrEmpty (safe_get p "offer_id") = true →
        "item_group_id is required when variant rows are present (e.g., color/size/offer_id)" ∉ es)) := by
  refine ⟨?_, ?_, ?_⟩
  · intro hv hg
    unfold validate_variants
    dsimp only
    simp [hv, hg, List.mem_append]
  · intro hv
    unfold validate_variants
    dsimp only
    simp [hv, List.mem_append, mem_ite_nil]
  · intro now es ws inf h
    unfold validate_product validateProductCore at h
    dsimp only at h
    obtain ⟨ePre, hPre, h⟩ := bind_ok_elim h
    obtain ⟨saleRes, hSale, h⟩ := bind_ok_elim h
    obtain ⟨wShip, hShip, h⟩ := bind_ok_elim h
    obtain ⟨eS, wS⟩ := saleRes
    simp only [pure, Except.pure, Except.ok.injEq, Prod.mk.injEq] at h
    obtain ⟨hes, -⟩ := h
    constructor
    · intro hv hg
      rw [← hes]
      rcases hv with hv | hv | hv | hv <;>
        simp [hv, hg, List.mem_append]
    · intro h1 h2 h3 h4 hmem
      rw [← hes] at hmem
      rcases List.mem_append.mp hmem with hmem | hm
      rcases List.mem_append.mp hmem with hmem | hm
      rcases List.mem_append.mp hmem with hmem | hm
      rcases List.mem_append.mp hmem with hmem | hm
      rcases List.mem_append.mp hmem with hmem | hm
      rcases List.mem_append.mp hmem with hmem | hm
      rcases List.mem_append.mp hmem with hmem | hm
      rcases List.mem_append.mp hmem with hmem | hm
      rcases List.mem_append.mp hmem with hmem | hm
      rcases List.mem_append.mp hmem with hmem | hm
      rcases List.mem_append.mp hmem with hm | hm
      · simp [mem_ite_full] at hm
      · simp [mem_ite_full] at hm
      · simp [mem_ite_full] at hm
      · simp [mem_ite_full] at hm
      · simp [mem_ite_full] at hm
      · rcases hpv : (extract_price_and_currency (safe_get p "price")).1 with - | pv0 <;>
          simp [hpv, mem_ite_full] at hm
      · simp [mem_ite_full] at hm
      · simp [mem_ite_full] at hm
      · simp [mem_ite_full] at hm
      · rcases preorderCheck_errs now _ _ _ hPre _ hm with hc | hc | hc <;> simp at hc
      · simp [h1, h2, h3, h4] at hm
      · rcases saleCheck_errs _ _ _ _ _ hSale _ hm with hc | hc | hc | hc | hc <;> simp at hc

/-- Witness for C6 on the spec's own example (`color="red"`, no
item_group_id). -/
theorem C6_variants_witness :
    "item_group_id required when variants exist" ∈
      (validate_variants [("color", PyValue.str "red")]).1 :=
  (C6_variants_amended [("color", PyValue.str "red")]).1 rfl rfl

/-- The tail phases shared by the BFS route, stated declaratively. -/
def extractSpecTail (obj : PyValue) : List PyValue :=
  match bfsFirstGood obj with
  | some xs => xs
  | Option.none =>
    match obj with
    | .dict _ => [obj]
    | _ => []

/-- Modelled from the spec (amended C2): app.py's discovery — the root when
it is a list of mappings; else the first reserved container key whose value
is a list of mappings; else the first non-empty breadth-first list of
mappings; else the mapping root as a single record; else no records. -/
def extractSpecApp (obj : PyValue) : List PyValue :=
  if isAllDictList obj then unlistVal obj
  else
    match obj with
    | .dict kvs =>
      (match containerKeys.find? (fun k =>
          match dictLookup kvs k with
          | some (.list ys) => ys.all isDict
          | _ => false) with
       | some k => unlistVal (dictGetD kvs k)
       | Option.none => extractSpecTail obj)
    | _ => extractSpecTail obj

/-- Modelled from the spec (amended C2): utils/parse.py's discovery — its
container-key phase takes any list value, unchecked. -/
def extractSpecUtils (obj : PyValue) : List PyValue :=
  if isAllDictList obj then unlistVal obj
  else
    match obj with
    | .dict kvs =>
      (match containerKeys.find? (fun k =>
          match dictLookup kvs k with
          | some (.list ys) => true
          | _ => false) with
       | some k => unlistVal (dictGetD kvs k)
       | Option.none => extractSpecTail obj)
    | _ => extractSpecTail obj

/-- The BFS-then-fallback phases of the sources equal their declarative
statement. -/
theorem extractViaBfs_eq_specTail (obj : PyValue) :
    extractViaBfs obj = extractSpecTail obj := by
  unfold extractViaBfs extractSpecTail bfsFirstGood
  rw [bfs_loop_eq_find]

/-- app.py's container-key loop is the first reserved key bound to an
all-dict list. -/
theorem findContainerApp_eq (kvs : List (String × PyValue)) (keys : List String) :
    findContainerApp kvs keys =
      (keys.find? (fun k =>
        match dictLookup kvs k with
        | some (.list ys) => ys.all isDict
        | _ => false)).map (fun k => unlistVal (dictGetD kvs k)) := by
  induction keys with
  | nil => rfl
  | cons key rest ih =>
    cases hk : dictLookup kvs key with
    | none => simp [findContainerApp, List.find?, hk, ih]
    | some v =>
      cases v with
      | list ys =>
        by_cases hall : ys.all isDict = true
        · simp [findContainerApp, List.find?, hk, hall, dictGetD, unlistVal]
        · simp [findContainerApp, List.find?, hk, hall, ih]
      | none => simp [findContainerApp, List.find?, hk, ih]
      | bool b => simp [findContainerApp, List.find?, hk, ih]
      | int n => simp [findContainerApp, List.find?, hk, ih]
      | float d => simp [findContainerApp, List.find?, hk, ih]
      | str s2 => simp [findContainerApp, List.find?, hk, ih]
      | dict kvs2 => simp [findContainerApp, List.find?, hk, ih]

/-- utils/parse.py's container-key loop is the first reserved key bound to
any list. -/
theorem findContainerUtils_eq (kvs : List (String × PyValue)) (keys : List String) :
    findContainerUtils kvs keys =
      (keys.find? (fun k =>
        match dictLookup kvs k with
        | some (.list ys) => true
        | _ => false)).map (fun k => unlistVal (dictGetD kvs k)) := by
  induction keys with
  | nil => rfl
  | cons key rest ih =>
    cases hk : dictLookup kvs key with
    | none => simp [findContainerUtils, List.find?, hk, ih]
    | some v =>
      cases v with
      | list ys => simp [findContainerUtils, List.find?, hk, dictGetD, unlistVal]
      | none => simp [findContainerUtils, List.find?, hk, ih]
      | bool b => simp [findContainerUtils, List.find?, hk, ih]
      | int n => simp [findContainerUtils, List.find?, hk, ih]
      | float d => simp [findContainerUtils, List.find?, hk, ih]
      | str s2 => simp [findContainerUtils, List.find?, hk, ih]
      | dict kvs2 => simp [findContainerUtils, List.find?, hk, ih]

/-- C2 (amended): both extractors equal the amended description — the BFS
phase returns the first NON-EMPTY breadth-first list of mappings, and
utils/parse.py's container-key phase takes any list. -/
theorem C2_feed_discovery_amended (obj : PyValue) :
    extract_products_from_json_app obj = extractSpecApp obj ∧
    extract_products_from_json_utils obj = extractSpecUtils obj := by
  constructor
  · cases obj with
    | list xs =>
      by_cases hall : xs.all isDict = true
      · simp [extract_products_from_json_app, extractSpecApp, isAllDictList, hall, unlistVal]
      · simp [extract_products_from_json_app, extractSpecApp, isAllDictList, hall,
          extractViaBfs_eq_specTail]
    | dict kvs =>
      cases hf : containerKeys.find? (fun k =>
          match dictLookup kvs k with
          | some (.list ys) => ys.all isDict
          | _ => false) with
      | none =>
        simp [extract_products_from_json_app, extractSpecApp, isAllDictList,
          findContainerApp_eq, hf, extractViaBfs_eq_specTail]
      | some k =>
        simp [extract_products_from_json_app, extractSpecApp, isAllDictList,
          findContainerApp_eq, hf]
    | none => simp [extract_products_from_json_app, extractSpecApp, isAllDictList,
        extractViaBfs_eq_specTail]
    | bool b => simp [extract_products_from_json_app, extractSpecApp, isAllDictList,
        extractViaBfs_eq_specTail]
    | int n => simp [extract_products_from_json_app, extractSpecApp, isAllDictList,
        extractViaBfs_eq_specTail]
    | float d => simp [extract_products_from_json_app, extractSpecApp, isAllDictList,
        extractViaBfs_eq_specTail]
    | str s2 => simp [extract_products_from_json_app, extractSpecApp, isAllDictList,
        extractViaBfs_eq_specTail]
  · cases obj with
    | list xs =>
      by_cases hall : xs.all isDict = true
      · simp [extract_products_from_json_utils, extractSpecUtils, isAllDictList, hall, unlistVal]
      · simp [extract_products_from_json_utils, extractSpecUtils, isAllDictList, hall,
          extractViaBfs_eq_specTail]
    | dict kvs =>
      cases hf : containerKeys.find? (fun k =>
          match dictLookup kvs k with
          | some (.list ys) => true
          | _ => false) with
      | none =>
        simp [extract_products_from_json_utils, extractSpecUtils, isAllDictList,
          findContainerUtils_eq, hf, extractViaBfs_eq_specTail]
      | some k =>
        simp [extract_products_from_json_utils, extractSpecUtils, isAllDictList,
          findContainerUtils_eq, hf]
    | none => simp [extract_products_from_json_utils, extractSpecUtils, isAllDictList,
        extractViaBfs_eq_specTail]
    | bool b => simp [extract_products_from_json_utils, extractSpecUtils, isAllDictList,
        extractViaBfs_eq_specTail]
    | int n => simp [extract_products_from_json_utils, extractSpecUtils, isAllDictList,
        extractViaBfs_eq_specTail]
    | float d => simp [extract_products_from_json_utils, extractSpecUtils, isAllDictList,
        extractViaBfs_eq_specTail]
    | str s2 => simp [extract_products_from_json_utils, extractSpecUtils, isAllDictList,
        extractViaBfs_eq_specTail]

/-- A mapping whose only value is an empty list. -/
def emptyListRecordObj : PyValue := .dict [("a", .list [])]

/-- A mapping whose `feed` key holds a list with a non-dict element. -/
def feedNonDictObj : PyValue := .dict [("feed", .list [.int 1])]

/-- C2 (counterexample to the claim as stated): on `a: []` both sources
skip the empty list in the BFS phase (its test requires non-emptiness) and
return the root as a single record, while the claim's description returns
the empty list; and on `feed: [1]` utils/parse.py returns the list `[1]`
although its element is not a mapping, while the claim's description (and
app.py) treat the root as a single record. -/
theorem C2_feed_discovery_counterexample :
    extract_products_from_json_app emptyListRecordObj = [emptyListRecordObj] ∧
    extract_products_from_json_utils emptyListRecordObj = [emptyListRecordObj] ∧
    extractClaimDescribed emptyListRecordObj = [] ∧
    extract_products_from_json_utils feedNonDictObj = [.int 1] ∧
    extractClaimDescribed feedNonDictObj = [feedNonDictObj] ∧
    ([emptyListRecordObj] : List PyValue) ≠ [] := by
  refine ⟨?_, ?_, ?_, ?_, ?_, by simp⟩ <;>
    simp [extract_products_from_json_app, extract_products_from_json_utils,
      extractClaimDescribed, extractClaimTail, extractViaBfs, bfsFirstAllDict,
      findContainerApp, findContainerUtils, containerKeys, dictLookup,
      emptyListRecordObj, feedNonDictObj, bfs_loop, bfsTraversal, dictValues,
      goodList, isDict, isAllDictList, unlistVal, List.find?]

example :
    extract_products_from_json_app
      (.dict [("feed", .list [.dict [("id", .str "1")], .dict [("id", .str "2")]])]) =
      [.dict [("id", .str "1")], .dict [("id", .str "2")]] := rfl

example :
    extract_products_from_json_app (.dict [("a", .dict [("b", .list [.dict [("id", .str "1")]])])]) =
      [.dict [("id", .str "1")]] := by
  simp [extract_products_from_json_app, extractViaBfs, findContainerApp, containerKeys,
    dictLookup, bfs_loop, dictValues, goodList, isDict, List.find?]

example : extract_products_from_json_app (.dict [("id", .str "1")]) = [.dict [("id", .str "1")]] := by
  simp [extract_products_from_json_app, extractViaBfs, findContainerApp, containerKeys,
    dictLookup, bfs_loop, dictValues, goodList, isDict, List.find?]
